import Mathlib

/-!
Verification of the Compiler repository's lexer / recursive-descent parser
against its natural-language specification.

The development shallowly embeds the C++ sources:

* `Lex`    — the token model and the demand-driven lexer
             (src/Code/Lexer.cpp together with the token/lexer header
             snapshot src/unnamed/part_006);
* `Arena`  — the bump allocator (src/unnamed/part_003, and the identical
             copy embedded in src/Code/Parser.cpp);
* `P1`     — the declaration/statement-split parser variant
             (first document of src/unnamed/part_001, header
             second document of src/unnamed/part_004);
* `CodeP`  — the statement-list parser variant of src/unnamed/part_002
             (header src/Code/Parser.h);
* `CodeC`  — the statement-list parser variant of src/Code/Parser.cpp
             (first document; stubbed ParseExpression), same header.

Machine integers: the sources use u64 / s64 / isize.  Cursors and lengths
are modelled as `Nat` (they only grow from 0 by +1 steps, far from 2^64);
the one place where u64 wrap-around is observable — the always-true guard
`tokens_cursor_ - 1 >= 0` in `Lexer::PreviousToken` — is modelled
explicitly with mod-2^64 arithmetic.  The s64 integer-literal accumulator
is modelled as `Int`; the spec (§9) declares its overflow behaviour
unspecified, and no claim touches it.

The C++ `Lexer` object is split into two structures: `CharCursor` holds
the fields touched by the character-level helpers (`input_`,
`input_cursor_`, `current_location_`) and `LexState` adds the token
buffer and token cursor (`tokens_`, `tokens_cursor_`).  The split mirrors
exactly which fields each member function reads or writes: none of the
character-level helpers touch the token buffer.

Loops and recursion are embedded structurally with explicit fuel so that
every definition is executable and kernel-reducible; fuel exhaustion is an
explicit error value, and the lemma `peekTokenAux_spec` shows the fuel
chosen for the token-buffer loop is always sufficient.
-/

namespace Lex

/-- Token discriminants, from the TokenType enum of the lexer header
(src/unnamed/part_006).  Raw single-character punctuation is tagged with
the character itself (`static_cast<TokenType>(ch)` in the source). -/
inductive TokenType where
  | tchar (c : Char)
  | identifier
  | integer
  | plus_assign
  | minus_assign
  | multiply_assign
  | divide_assign
  | modulo_assign
  | equals
  | not_equals
  | less_equals
  | greater_equals
  | return_arrow
  | keyword_if
  | keyword_else
  | keyword_while
  | keyword_return
  | keyword_proc
  | keyword_true
  | keyword_false
  | keyword_cast
  | keyword_transmute
  | keyword_type
  | keyword_const
  | keyword_struct
  | invalid
deriving DecidableEq, Repr

/-- Source position, 1-based (`FileLocation`). -/
structure FileLocation where
  line : Nat := 0
  column : Nat := 0
deriving DecidableEq, Repr

/-- A token.  The C++ Token stores the identifier text and the integer
value in a union; exactly one of them is ever written, the other keeps its
default, which is how the two fields behave here. -/
structure Token where
  type : TokenType := .invalid
  ident : List Char := []
  intVal : Int := 0
  start : FileLocation := {}
  endLoc : FileLocation := {}
deriving DecidableEq, Repr

instance : Inhabited Token := ⟨{}⟩

/-- The static keyword table (`Lexer::keywords`, src/unnamed/part_006). -/
def keywords : List (List Char × TokenType) :=
  [ ("if".toList,        .keyword_if),
    ("else".toList,      .keyword_else),
    ("while".toList,     .keyword_while),
    ("return".toList,    .keyword_return),
    ("proc".toList,      .keyword_proc),
    ("true".toList,      .keyword_true),
    ("false".toList,     .keyword_false),
    ("cast".toList,      .keyword_cast),
    ("transmute".toList, .keyword_transmute),
    ("type".toList,      .keyword_type),
    ("const".toList,     .keyword_const),
    ("struct".toList,    .keyword_struct) ]

/-- `CheckIdentifierForKeyword` (src/Code/Lexer.cpp). -/
def checkIdentifierForKeyword (ident : List Char) : TokenType :=
  match keywords.lookup ident with
  | some t => t
  | none => .identifier

/-- `std::isdigit` on the C locale. -/
def isDigitChar (c : Char) : Bool := decide ('0' ≤ c ∧ c ≤ '9')

/-- `std::isalnum` on the C locale. -/
def isAlnumChar (c : Char) : Bool :=
  isDigitChar c || decide (('a' ≤ c ∧ c ≤ 'z') ∨ ('A' ≤ c ∧ c ≤ 'Z'))

/-- Identifier start characters: the letter and underscore cases of the
Tokenize switch. -/
def isIdentStartChar (c : Char) : Bool :=
  decide (('a' ≤ c ∧ c ≤ 'z') ∨ ('A' ≤ c ∧ c ≤ 'Z') ∨ c = '_')

/-- The character-level part of the lexer state: `input_`,
`input_cursor_`, `current_location_`. -/
structure CharCursor where
  input : List Char
  inputCursor : Nat := 0
  currentLocation : FileLocation := ⟨1, 1⟩
deriving DecidableEq, Repr

/-- The full lexer object state (`class Lexer`): the character cursor plus
the append-only token buffer `tokens_` and the token cursor
`tokens_cursor_`. -/
structure LexState where
  cc : CharCursor
  tokens : List Token := []
  tokensCursor : Nat := 0
deriving DecidableEq, Repr

/-- `Lexer::Lexer(input)`. -/
def mkLexer (input : List Char) : LexState := { cc := { input := input } }

/-- `Lexer::PeekNextChar`; `none` models the -1 end-of-input value. -/
def peekNextChar (s : CharCursor) : Option Char :=
  if h : s.inputCursor < s.input.length then some (s.input.get ⟨s.inputCursor, h⟩)
  else none

/-- `Lexer::PeekChar(peek)` (callers only pass nonnegative peeks). -/
def peekChar (s : CharCursor) (peek : Nat) : Option Char :=
  if peek = 0 then peekNextChar s
  else if h : s.inputCursor + peek < s.input.length then
    some (s.input.get ⟨s.inputCursor + peek, h⟩)
  else none

/-- `Lexer::EatChar`: advances the input cursor, counting a lone LF or a
CRLF pair as one line break (the CR of a CRLF is skipped together with the
LF, hence the +2). -/
def eatChar (s : CharCursor) : CharCursor :=
  let c := peekNextChar s
  if c = some '\n' ∨ (c = some '\r' ∧ peekChar s 1 = some '\n') then
    { s with currentLocation := ⟨s.currentLocation.line + 1, 1⟩,
             inputCursor := s.inputCursor + (if c = some '\r' then 2 else 1) }
  else
    { s with currentLocation := ⟨s.currentLocation.line, s.currentLocation.column + 1⟩,
             inputCursor := s.inputCursor + 1 }

/-- Loop body of `Lexer::SkipWhitespaces`, with fuel (each iteration
consumes at least one input character, so the remaining input length is
sufficient fuel). -/
def skipWsFuel : Nat → CharCursor → CharCursor
  | 0, s => s
  | f + 1, s =>
    let c := peekNextChar s
    if c = some ' ' ∨ c = some '\t' ∨ c = some '\n' ∨
        (c = some '\r' ∧ peekChar s 1 = some '\n') then
      skipWsFuel f (eatChar s)
    else s

/-- `Lexer::SkipWhitespaces`. -/
def skipWhitespaces (s : CharCursor) : CharCursor :=
  skipWsFuel (s.input.length - s.inputCursor) s

/-- Loop of `Lexer::ParseInteger`: greedy digit consumption into a signed
accumulator (modelled as unbounded `Int`; overflow is unspecified
behaviour per spec §9 and never reached in this development). -/
def parseIntegerAux : Nat → Int → CharCursor → Int × CharCursor
  | 0, acc, s => (acc, s)
  | f + 1, acc, s =>
    match peekNextChar s with
    | some c =>
      if isDigitChar c then parseIntegerAux f (acc * 10 + ((c.toNat : Int) - 48)) (eatChar s)
      else (acc, s)
    | none => (acc, s)

/-- `Lexer::ParseInteger`. -/
def parseInteger (s : CharCursor) : Int × CharCursor :=
  parseIntegerAux (s.input.length - s.inputCursor) 0 s

/-- Loop of `Lexer::ParseIdentifier`, collecting the consumed characters
(the source returns the equivalent `input_.substr(start, count)`). -/
def parseIdentifierAux : Nat → CharCursor → List Char × CharCursor
  | 0, s => ([], s)
  | f + 1, s =>
    match peekNextChar s with
    | some c =>
      if isAlnumChar c || decide (c = '_') then
        let r := parseIdentifierAux f (eatChar s)
        (c :: r.1, r.2)
      else ([], s)
    | none => ([], s)

/-- `Lexer::ParseIdentifier`. -/
def parseIdentifier (s : CharCursor) : List Char × CharCursor :=
  parseIdentifierAux (s.input.length - s.inputCursor) s

/-- The switch statement of `Lexer::Tokenize` (src/Code/Lexer.cpp):
classifies the next character and consumes it (plus the optional second
character of a compound operator, or the whole digit/identifier run),
returning the token type, identifier payload, integer payload, and the
advanced cursor.  The `default:` case — any unrecognized character,
including end of input — consumes one character and leaves the token type
at its default `invalid`. -/
def tokenizeSwitch (s : CharCursor) : TokenType × List Char × Int × CharCursor :=
  match peekNextChar s with
  | some c =>
    if c = '=' then
      if peekChar s 1 = some '=' then (.equals, [], 0, eatChar (eatChar s))
      else (.tchar c, [], 0, eatChar s)
    else if c = '!' then
      if peekChar s 1 = some '=' then (.not_equals, [], 0, eatChar (eatChar s))
      else (.tchar c, [], 0, eatChar s)
    else if c = '+' then
      if peekChar s 1 = some '=' then (.plus_assign, [], 0, eatChar (eatChar s))
      else (.tchar c, [], 0, eatChar s)
    else if c = '-' then
      if peekChar s 1 = some '=' then (.minus_assign, [], 0, eatChar (eatChar s))
      else if peekChar s 1 = some '>' then (.return_arrow, [], 0, eatChar (eatChar s))
      else (.tchar c, [], 0, eatChar s)
    else if c = '*' then
      if peekChar s 1 = some '=' then (.multiply_assign, [], 0, eatChar (eatChar s))
      else (.tchar c, [], 0, eatChar s)
    else if c = '/' then
      if peekChar s 1 = some '=' then (.divide_assign, [], 0, eatChar (eatChar s))
      else (.tchar c, [], 0, eatChar s)
    else if c = '%' then
      if peekChar s 1 = some '=' then (.modulo_assign, [], 0, eatChar (eatChar s))
      else (.tchar c, [], 0, eatChar s)
    else if c = '<' then
      if peekChar s 1 = some '=' then (.less_equals, [], 0, eatChar (eatChar s))
      else (.tchar c, [], 0, eatChar s)
    else if c = '>' then
      if peekChar s 1 = some '=' then (.greater_equals, [], 0, eatChar (eatChar s))
      else (.tchar c, [], 0, eatChar s)
    else if c ∈ ['{', '}', '(', ')', '[', ']', ';', ':', ','] then
      (.tchar c, [], 0, eatChar s)
    else if isDigitChar c then
      let r := parseInteger s
      (.integer, [], r.1, r.2)
    else if isIdentStartChar c then
      let r := parseIdentifier s
      (checkIdentifierForKeyword r.1, r.1, 0, r.2)
    else
      (.invalid, [], 0, eatChar s)
  | none => (.invalid, [], 0, eatChar s)

/-- `Lexer::Tokenize`: skip whitespace, classify one token (the switch
above), then record its source span and append it to the token buffer.
The debug assertion `Assert(token.end.column != 0)` is omitted: `EatChar`
always increments the column of whatever it consumes, so the assertion
never fires on the paths modelled here. -/
def tokenize (s : LexState) : LexState :=
  let cc := skipWhitespaces s.cc
  let startLoc := cc.currentLocation
  let r := tokenizeSwitch cc
  let cc1 := r.2.2.2
  let tok : Token :=
    { type := r.1, ident := r.2.1, intVal := r.2.2.1, start := startLoc,
      endLoc := ⟨cc1.currentLocation.line, cc1.currentLocation.column - 1⟩ }
  { cc := cc1, tokens := s.tokens ++ [tok], tokensCursor := s.tokensCursor }

/-- Recursion of `Lexer::PeekToken` / `PeekNextToken`: tokenize until the
requested position is inside the buffer, then return that token.  `fuel`
bounds the number of `Tokenize` calls; `peekToken` below passes exactly
enough (each `Tokenize` appends exactly one token), as `peekTokenAux_spec`
proves, so the fuel-exhausted fallback is unreachable. -/
def peekTokenAux : Nat → Nat → LexState → Token × LexState
  | 0, n, s =>
    if h : s.tokensCursor + n < s.tokens.length then
      (s.tokens.get ⟨s.tokensCursor + n, h⟩, s)
    else (default, s)
  | f + 1, n, s =>
    if h : s.tokensCursor + n < s.tokens.length then
      (s.tokens.get ⟨s.tokensCursor + n, h⟩, s)
    else peekTokenAux f n (tokenize s)

/-- `Lexer::PeekToken(peek)`. -/
def peekToken (n : Nat) (s : LexState) : Token × LexState :=
  peekTokenAux (s.tokensCursor + n + 1 - s.tokens.length) n s

/-- `Lexer::PeekNextToken` (the source duplicates `PeekToken` with a zero
offset). -/
def peekNextToken (s : LexState) : Token × LexState := peekToken 0 s

/-- `Lexer::EatToken`. -/
def eatToken (s : LexState) : LexState :=
  { s with tokensCursor := s.tokensCursor + 1 }

/-- Fatal outcomes of the lexer cursor operations: `panic` is the
`Panic(...)` channel of Base.h (formatted message plus stack trace, then
`std::terminate`); `outOfRange` is the `std::out_of_range` exception
thrown by a failing `std::vector::at` bounds check. -/
inductive LexAbort where
  | panic
  | outOfRange
deriving DecidableEq, Repr

/-- The wrap-around `x - 1` on a u64, as it appears in
`Lexer::PreviousToken`. -/
def u64sub1 (n : Nat) : Nat := (n + (2 ^ 64 - 1)) % 2 ^ 64

/-- `Lexer::PreviousToken`: the guard `tokens_cursor_ - 1 >= 0` is u64
arithmetic and therefore always true, so the `Panic("No previous token")`
branch is dead code; with `tokens_cursor_ == 0` the subsequent
`tokens_.at(tokens_cursor_ - 1)` indexes at 2^64 - 1 and throws
`std::out_of_range` instead. -/
def previousToken (s : LexState) : Except LexAbort Token :=
  if 0 ≤ u64sub1 s.tokensCursor then
    if h : u64sub1 s.tokensCursor < s.tokens.length then
      .ok (s.tokens.get ⟨u64sub1 s.tokensCursor, h⟩)
    else .error .outOfRange
  else .error .panic

/-- `Lexer::UneatToken`: moves the cursor back one, panicking at the start
of the token history. -/
def uneatToken (s : LexState) : Except LexAbort LexState :=
  if s.tokensCursor > 0 then .ok { s with tokensCursor := s.tokensCursor - 1 }
  else .error .panic


end Lex

deriving instance DecidableEq for Except

namespace Arena

/-- Fatal outcomes of the arena: a failed `Assert` (debug abort) or the
`Panic("Arena is out of memory")` channel. -/
inductive ArenaAbort where
  | assertFail
  | outOfMemory
deriving DecidableEq, Repr

/-- The bump allocator state (`class Arena`, src/unnamed/part_003): the
buffer's base address, the fixed capacity `size_`, and the bump offset
`offset_`.  The C++ fields are `isize` with nonnegativity asserted on
every entry point; they are modelled as `Nat` (C++ `%` agrees with `Nat`
mod on nonnegative operands). -/
structure ArenaState where
  base : Nat
  size : Nat
  offset : Nat := 0
deriving DecidableEq, Repr

/-- `IsPowerOfTwo` (Base.h): `(value & (value - 1)) == 0`.  Note it is
true at 0. -/
def isPowerOfTwo (v : Nat) : Bool := decide (v &&& (v - 1) = 0)

/-- The value computed by `AlignForward` (Base.h): round `pointer` up to
the next multiple of `alignment`. -/
def alignForwardVal (pointer alignment : Nat) : Nat :=
  if pointer % alignment = 0 then pointer
  else pointer + (alignment - pointer % alignment)

/-- `AlignForward` (Base.h), including its `Assert(IsPowerOfTwo(alignment))`.
An alignment of 0 would make the C++ `pointer % alignment` undefined; the
theorems below always assume a positive power of two. -/
def alignForward (pointer alignment : Nat) : Except ArenaAbort Nat :=
  if ¬ isPowerOfTwo alignment then .error .assertFail
  else .ok (alignForwardVal pointer alignment)

/-- `Arena::Alloc(size, alignment)`: zero-size requests return the null
pointer (`none`) untouched; otherwise the bump pointer is aligned forward,
checked against the fixed capacity (`Panic` on exhaustion — there is no
growth path), and the block's start address is returned. -/
def alloc (s : ArenaState) (size alignment : Nat) :
    Except ArenaAbort (Option Nat × ArenaState) :=
  if size = 0 then .ok (none, s)
  else
    match alignForward (s.base + s.offset) alignment with
    | .error e => .error e
    | .ok aligned =>
      if s.size < aligned - s.base + size then .error .outOfMemory
      else .ok (some (s.base + (aligned - s.base)),
                { s with offset := aligned - s.base + size })


end Arena

namespace P1

open Lex

/-!
The declaration/statement-split parser: first document of
src/unnamed/part_001, whose header is the second document of
src/unnamed/part_004.  That header snapshot predates the
`ParseReturnStatement` / struct-type support found in the implementation,
so `statement_return` (inside the statement family) and `type_struct`
(with the type family) are added at the end of their families, and
`ProcedureDeclaration` carries the fields the implementation assigns
(identifier, parameters, return type, body).  Nothing in the enum beyond
the declaration range `declaration_variable ... declaration_type` is
compared by value.

`ExpectToken` in this variant always consumes the token it inspected and,
on a mismatch, logs one diagnostic and increments `error_count_` — there
is no resynchronization here.  `LogError` is modelled as a diagnostics
counter.
-/

/-- NodeType of the declaration-split AST (second document of
src/unnamed/part_004; see the note above on the two appended members). -/
inductive NodeType where
  | invalid
  | declaration_variable
  | declaration_const
  | declaration_procedure
  | declaration_type
  | statement_if
  | statement_while
  | statement_assingment
  | statement_block
  | statement_expression
  | statement_return
  | expression_integer_literal
  | expression_bool_literal
  | expression_identifier
  | expression_unary_operator
  | expression_binary_operator
  | expression_cast
  | type_identifier
  | type_pointer
  | type_struct
deriving DecidableEq, Repr

/-- The enum's underlying integer value, used by the range comparisons in
`IsDeclaration`. -/
def NodeType.idx : NodeType → Nat
  | .invalid => 0
  | .declaration_variable => 1
  | .declaration_const => 2
  | .declaration_procedure => 3
  | .declaration_type => 4
  | .statement_if => 5
  | .statement_while => 6
  | .statement_assingment => 7
  | .statement_block => 8
  | .statement_expression => 9
  | .statement_return => 10
  | .expression_integer_literal => 11
  | .expression_bool_literal => 12
  | .expression_identifier => 13
  | .expression_unary_operator => 14
  | .expression_binary_operator => 15
  | .expression_cast => 16
  | .type_identifier => 17
  | .type_pointer => 18
  | .type_struct => 19

/-- The AST node: one discriminant field (mutated to `invalid` by the
demotion in `ParseProgram`) plus the per-class payload.  Pointer children
that are assigned on every path are direct children; `value` fields with
a nullable default are `Option`. -/
inductive Node where
  | empty (tag : NodeType)
  | varDecl (tag : NodeType) (identifier : Token) (variableType : Node) (value : Option Node)
  | constDecl (tag : NodeType) (identifier : Token) (variableType : Node) (value : Node)
  | typeDecl (tag : NodeType) (identifier : Token) (declaredType : Node)
  | procDecl (tag : NodeType) (identifier : Token) (parameters : List (Token × Node))
      (returnType : Node) (body : Node)
  | ifStmt (tag : NodeType) (condition : Node) (trueBranch : Node) (falseBranch : Option Node)
  | whileStmt (tag : NodeType) (condition : Node) (body : Node)
  | assignStmt (tag : NodeType) (identifier : Token) (value : Node)
  | returnStmt (tag : NodeType) (value : Option Node)
  | blockStmt (tag : NodeType) (body : List Node)
  | exprStmt (tag : NodeType) (expression : Node)
  | intLit (tag : NodeType) (value : Token)
  | boolLit (tag : NodeType) (value : Bool)
  | identExpr (tag : NodeType) (identifier : Token)
  | unaryOp (tag : NodeType) (op : TokenType) (right : Node)
  | binaryOp (tag : NodeType) (op : TokenType) (left : Node) (right : Node)
  | typeIdent (tag : NodeType) (identifier : Token)
  | typePointer (tag : NodeType) (pointsTo : Node)
  | typeStruct (tag : NodeType) (members : List (Token × Node))
deriving Repr

/-- The node's discriminant (`node->type`). -/
def Node.tag : Node → NodeType
  | .empty t => t
  | .varDecl t _ _ _ => t
  | .constDecl t _ _ _ => t
  | .typeDecl t _ _ => t
  | .procDecl t _ _ _ _ => t
  | .ifStmt t _ _ _ => t
  | .whileStmt t _ _ => t
  | .assignStmt t _ _ => t
  | .returnStmt t _ => t
  | .blockStmt t _ => t
  | .exprStmt t _ => t
  | .intLit t _ => t
  | .boolLit t _ => t
  | .identExpr t _ => t
  | .unaryOp t _ _ => t
  | .binaryOp t _ _ _ => t
  | .typeIdent t _ => t
  | .typePointer t _ => t
  | .typeStruct t _ => t

/-- Overwrite the discriminant (`statement->type = NodeType::invalid`),
leaving the payload in place. -/
def Node.setTag : Node → NodeType → Node
  | .empty _, t => .empty t
  | .varDecl _ a b c, t => .varDecl t a b c
  | .constDecl _ a b c, t => .constDecl t a b c
  | .typeDecl _ a b, t => .typeDecl t a b
  | .procDecl _ a b c d, t => .procDecl t a b c d
  | .ifStmt _ a b c, t => .ifStmt t a b c
  | .whileStmt _ a b, t => .whileStmt t a b
  | .assignStmt _ a b, t => .assignStmt t a b
  | .returnStmt _ a, t => .returnStmt t a
  | .blockStmt _ a, t => .blockStmt t a
  | .exprStmt _ a, t => .exprStmt t a
  | .intLit _ a, t => .intLit t a
  | .boolLit _ a, t => .boolLit t a
  | .identExpr _ a, t => .identExpr t a
  | .unaryOp _ a b, t => .unaryOp t a b
  | .binaryOp _ a b c, t => .binaryOp t a b c
  | .typeIdent _ a, t => .typeIdent t a
  | .typePointer _ a, t => .typePointer t a
  | .typeStruct _ a, t => .typeStruct t a

instance : Inhabited Node := ⟨.empty .invalid⟩

/-- `IsDeclaration` (src/unnamed/part_001): a range check on the enum
value. -/
def isDeclarationNode (n : Node) : Bool :=
  decide (NodeType.idx .declaration_variable ≤ n.tag.idx ∧
          n.tag.idx ≤ NodeType.idx .declaration_type)

/-- Expression binding levels (`enum class Precedence`); `prefixOp` is the
source's `prefix` level. -/
inductive Precedence where
  | lowest
  | equals
  | comparison
  | plus
  | multiply
  | prefixOp
deriving DecidableEq, Repr

/-- Underlying enum value, used by the `<` comparison in
`ParseExpression`. -/
def Precedence.idx : Precedence → Nat
  | .lowest => 0
  | .equals => 1
  | .comparison => 2
  | .plus => 3
  | .multiply => 4
  | .prefixOp => 5

/-- `TokenTypeToPrecedense` (src/unnamed/part_001): precedence of a binary
operator token; anything else maps to `lowest`. -/
def tokenTypeToPrecedense : TokenType → Precedence
  | .equals => .equals
  | .not_equals => .equals
  | .tchar '<' => .comparison
  | .tchar '>' => .comparison
  | .less_equals => .comparison
  | .greater_equals => .comparison
  | .tchar '+' => .plus
  | .tchar '-' => .plus
  | .tchar '*' => .multiply
  | .tchar '/' => .multiply
  | .tchar '%' => .multiply
  | _ => .lowest

/-- `Program`: top-level declarations plus the error counter. -/
structure Program where
  declarations : List Node := []
  errorCount : Nat := 0
deriving Repr

/-- Parser object state: the owned lexer, `error_count_`, and the number
of diagnostics written to the log sink (`LogError` calls). -/
structure PState where
  lex : LexState
  errorCount : Nat := 0
  diags : Nat := 0
deriving Repr

/-- Fuel exhaustion marker for the structural-fuel embedding (the C++
recursion has no such case; all concrete runs below finish with fuel to
spare). -/
inductive P1Err where
  | fuel
deriving DecidableEq, Repr

/-- `lexer_.PeekNextToken()` through the parser state. -/
def peekT (st : PState) : Token × PState :=
  let r := Lex.peekNextToken st.lex
  (r.1, { st with lex := r.2 })

/-- `lexer_.PeekToken(1)` through the parser state. -/
def peekT1 (st : PState) : Token × PState :=
  let r := Lex.peekToken 1 st.lex
  (r.1, { st with lex := r.2 })

/-- `lexer_.EatToken()` through the parser state. -/
def eatT (st : PState) : PState :=
  { st with lex := Lex.eatToken st.lex }

/-- `LogError(...)`: one line to the diagnostics sink. -/
def logError (st : PState) : PState :=
  { st with diags := st.diags + 1 }

/-- `Parser::ExpectToken` (src/unnamed/part_001): peek, always eat, and on
a type mismatch log one diagnostic and bump `error_count_`; the inspected
token is returned either way. -/
def expectToken (ty : TokenType) (st : PState) : Token × PState :=
  let r := peekT st
  let st1 := eatT r.2
  if r.1.type ≠ ty then
    (r.1, { st1 with diags := st1.diags + 1, errorCount := st1.errorCount + 1 })
  else (r.1, st1)

/-- `Parser::NextTokenIs`. -/
def nextTokenIs (ty : TokenType) (st : PState) : Bool × PState :=
  let r := peekT st
  (r.1.type = ty, r.2)

mutual

/-- Loop of `Parser::ParseProgram`: parse top-level constructs until the
EOF sentinel, demoting every non-declaration to `invalid` with a logged
diagnostic. -/
def parseProgramAux : Nat → PState → Except P1Err (List Node × PState)
  | 0, _ => .error .fuel
  | f + 1, st =>
    let r := peekT st
    if r.1.type = .invalid then .ok ([], r.2)
    else do
      let (stmt, st1) ← parseStatement f r.2
      let (stmt, st2) :=
        if !isDeclarationNode stmt then (stmt.setTag .invalid, logError st1)
        else (stmt, st1)
      let (rest, st3) ← parseProgramAux f st2
      .ok (stmt :: rest, st3)

/-- `Parser::ParseStatement` (src/unnamed/part_001): dispatch on the
current token, with one extra token of lookahead for identifiers. -/
def parseStatement : Nat → PState → Except P1Err (Node × PState)
  | 0, _ => .error .fuel
  | f + 1, st =>
    let r := peekT st
    match r.1.type with
    | .identifier =>
      let r1 := peekT1 r.2
      if r1.1.type = .tchar ':' then parseVariableDeclaration f r1.2
      else if r1.1.type = .tchar '=' then parseAssignmentStatement f r1.2
      else parseExpressionStatement f r1.2
    | .keyword_proc => parseProcedureDeclaration f r.2
    | .keyword_const => parseConstantDeclaration f r.2
    | .keyword_type => parseTypeDeclaration f r.2
    | .keyword_if => parseIfStatement f r.2
    | .keyword_while => parseWhileStatement f r.2
    | .keyword_return => parseReturnStatement f r.2
    | .tchar '{' => parseBlockStatement f r.2
    | _ => parseExpressionStatement f r.2

/-- `Parser::ParseConstantDeclaration`. -/
def parseConstantDeclaration : Nat → PState → Except P1Err (Node × PState)
  | 0, _ => .error .fuel
  | f + 1, st => do
    let (_, st) := expectToken .keyword_const st
    let (idTok, st) := expectToken .identifier st
    let (_, st) := expectToken (.tchar ':') st
    let (vt, st) ← parseType f st
    let (_, st) := expectToken (.tchar '=') st
    let (v, st) ← parseExpression f .lowest st
    let (_, st) := expectToken (.tchar ';') st
    .ok (.constDecl .declaration_const idTok vt v, st)

/-- `Parser::ParseVariableDeclaration`. -/
def parseVariableDeclaration : Nat → PState → Except P1Err (Node × PState)
  | 0, _ => .error .fuel
  | f + 1, st => do
    let (idTok, st) := expectToken .identifier st
    let (_, st) := expectToken (.tchar ':') st
    let (vt, st) ← parseType f st
    let r := nextTokenIs (.tchar '=') st
    if r.1 then do
      let st := eatT r.2
      let (v, st) ← parseExpression f .lowest st
      let (_, st) := expectToken (.tchar ';') st
      .ok (.varDecl .declaration_variable idTok vt (some v), st)
    else do
      let (_, st) := expectToken (.tchar ';') r.2
      .ok (.varDecl .declaration_variable idTok vt none, st)

/-- `Parser::ParseTypeDeclaration`. -/
def parseTypeDeclaration : Nat → PState → Except P1Err (Node × PState)
  | 0, _ => .error .fuel
  | f + 1, st => do
    let (_, st) := expectToken .keyword_type st
    let (idTok, st) := expectToken .identifier st
    let (_, st) := expectToken (.tchar '=') st
    let (dt, st) ← parseType f st
    let (_, st) := expectToken (.tchar ';') st
    .ok (.typeDecl .declaration_type idTok dt, st)

/-- Parameter loop of `Parser::ParseProcedureDeclaration` (collects into
the temporary vector; a comma is expected before every parameter except
the first). -/
def parseProcParams : Nat → Bool → List (Token × Node) → PState →
    Except P1Err (List (Token × Node) × PState)
  | 0, _, _, _ => .error .fuel
  | f + 1, firstParameter, acc, st =>
    let r1 := nextTokenIs (.tchar ')') st
    if r1.1 then .ok (acc, r1.2)
    else
      let r2 := nextTokenIs .invalid r1.2
      if r2.1 then .ok (acc, r2.2)
      else do
        let st := r2.2
        let (st, firstP) :=
          if !firstParameter then ((expectToken (.tchar ',') st).2, false)
          else (st, false)
        let (pid, st) := expectToken .identifier st
        let (_, st) := expectToken (.tchar ':') st
        let (pt, st) ← parseType f st
        parseProcParams f firstP (acc ++ [(pid, pt)]) st

/-- `Parser::ParseProcedureDeclaration` (src/unnamed/part_001): name,
parameter list, return arrow and type, then the body block. -/
def parseProcedureDeclaration : Nat → PState → Except P1Err (Node × PState)
  | 0, _ => .error .fuel
  | f + 1, st => do
    let (_, st) := expectToken .keyword_proc st
    let (idTok, st) := expectToken .identifier st
    let (_, st) := expectToken (.tchar '(') st
    let (params, st) ← parseProcParams f true [] st
    let (_, st) := expectToken (.tchar ')') st
    let (_, st) := expectToken .return_arrow st
    let (rt, st) ← parseType f st
    let (body, st) ← parseBlockStatement f st
    .ok (.procDecl .declaration_procedure idTok params rt body, st)

/-- `Parser::ParseExpressionStatement`. -/
def parseExpressionStatement : Nat → PState → Except P1Err (Node × PState)
  | 0, _ => .error .fuel
  | f + 1, st => do
    let (e, st) ← parseExpression f .lowest st
    let (_, st) := expectToken (.tchar ';') st
    .ok (.exprStmt .statement_expression e, st)

/-- `Parser::ParseIfStatement` (src/unnamed/part_001): no parentheses;
condition, true branch, then an optional `else` branch parsed as a plain
statement. -/
def parseIfStatement : Nat → PState → Except P1Err (Node × PState)
  | 0, _ => .error .fuel
  | f + 1, st => do
    let (_, st) := expectToken .keyword_if st
    let (cond, st) ← parseExpression f .lowest st
    let (tb, st) ← parseStatement f st
    let r := nextTokenIs .keyword_else st
    if !r.1 then .ok (.ifStmt .statement_if cond tb none, r.2)
    else do
      let st := eatT r.2
      let (fb, st) ← parseStatement f st
      .ok (.ifStmt .statement_if cond tb (some fb), st)

/-- `Parser::ParseWhileStatement` (src/unnamed/part_001): condition
expression then one body statement; the node is built by
`New<WhileStatement>()` whose constructor tag is `statement_while`. -/
def parseWhileStatement : Nat → PState → Except P1Err (Node × PState)
  | 0, _ => .error .fuel
  | f + 1, st => do
    let (_, st) := expectToken .keyword_while st
    let (cond, st) ← parseExpression f .lowest st
    let (body, st) ← parseStatement f st
    .ok (.whileStmt .statement_while cond body, st)

/-- Member loop of the `struct` case of `Parser::ParseType`. -/
def parseStructMembers : Nat → List (Token × Node) → PState →
    Except P1Err (List (Token × Node) × PState)
  | 0, _, _ => .error .fuel
  | f + 1, acc, st =>
    let r1 := nextTokenIs (.tchar '}') st
    if r1.1 then .ok (acc, r1.2)
    else
      let r2 := nextTokenIs .invalid r1.2
      if r2.1 then .ok (acc, r2.2)
      else do
        let (mid, st) := expectToken .identifier r2.2
        let (_, st) := expectToken (.tchar ':') st
        let (mt, st) ← parseType f st
        let (_, st) := expectToken (.tchar ';') st
        parseStructMembers f (acc ++ [(mid, mt)]) st

/-- `Parser::ParseType` (src/unnamed/part_001): identifier, pointer
(`*type`), or struct; anything else logs a diagnostic and yields an
`invalid` type node. -/
def parseType : Nat → PState → Except P1Err (Node × PState)
  | 0, _ => .error .fuel
  | f + 1, st =>
    let r := peekT st
    let tok := r.1
    let st := eatT r.2
    match tok.type with
    | .identifier => .ok (.typeIdent .type_identifier tok, st)
    | .tchar '*' => do
      let (inner, st) ← parseType f st
      .ok (.typePointer .type_pointer inner, st)
    | .keyword_struct => do
      let (_, st) := expectToken (.tchar '{') st
      let (members, st) ← parseStructMembers f [] st
      let (_, st) := expectToken (.tchar '}') st
      .ok (.typeStruct .type_struct members, st)
    | _ => .ok (.empty .invalid, logError st)

/-- `Parser::ParseAssignmentStatement`. -/
def parseAssignmentStatement : Nat → PState → Except P1Err (Node × PState)
  | 0, _ => .error .fuel
  | f + 1, st => do
    let (idTok, st) := expectToken .identifier st
    let (_, st) := expectToken (.tchar '=') st
    let (v, st) ← parseExpression f .lowest st
    let (_, st) := expectToken (.tchar ';') st
    .ok (.assignStmt .statement_assingment idTok v, st)

/-- `Parser::ParseReturnStatement`. -/
def parseReturnStatement : Nat → PState → Except P1Err (Node × PState)
  | 0, _ => .error .fuel
  | f + 1, st => do
    let (_, st) := expectToken .keyword_return st
    let r := nextTokenIs (.tchar ';') st
    if !r.1 then do
      let (v, st) ← parseExpression f .lowest r.2
      let (_, st) := expectToken (.tchar ';') st
      .ok (.returnStmt .statement_return (some v), st)
    else do
      let (_, st) := expectToken (.tchar ';') r.2
      .ok (.returnStmt .statement_return none, st)

/-- Statement loop of `Parser::ParseBlockStatement` (the temporary
vector of the two-phase construction). -/
def parseBlockItems : Nat → List Node → PState → Except P1Err (List Node × PState)
  | 0, _, _ => .error .fuel
  | f + 1, acc, st =>
    let r1 := nextTokenIs (.tchar '}') st
    if r1.1 then .ok (acc, r1.2)
    else
      let r2 := nextTokenIs .invalid r1.2
      if r2.1 then .ok (acc, r2.2)
      else do
        let (stmt, st) ← parseStatement f r2.2
        parseBlockItems f (acc ++ [stmt]) st

/-- `Parser::ParseBlockStatement` (src/unnamed/part_001). -/
def parseBlockStatement : Nat → PState → Except P1Err (Node × PState)
  | 0, _ => .error .fuel
  | f + 1, st => do
    let (_, st) := expectToken (.tchar '{') st
    let (items, st) ← parseBlockItems f [] st
    let (_, st) := expectToken (.tchar '}') st
    .ok (.blockStmt .statement_block items, st)

/-- `Parser::ParseUnaryExpression` (src/unnamed/part_001): the sole
producer of leaf/prefix expressions; the token is consumed before the
dispatch, and an unusable token logs a diagnostic and yields an `invalid`
expression node. -/
def parseUnaryExpression : Nat → PState → Except P1Err (Node × PState)
  | 0, _ => .error .fuel
  | f + 1, st =>
    let r := peekT st
    let tok := r.1
    let st := eatT r.2
    match tok.type with
    | .identifier => .ok (.identExpr .expression_identifier tok, st)
    | .integer => .ok (.intLit .expression_integer_literal tok, st)
    | .keyword_true => .ok (.boolLit .expression_bool_literal true, st)
    | .keyword_false => .ok (.boolLit .expression_bool_literal false, st)
    | .tchar '-' => do
      let (rhs, st) ← parseExpression f .prefixOp st
      .ok (.unaryOp .expression_unary_operator tok.type rhs, st)
    | .tchar '!' => do
      let (rhs, st) ← parseExpression f .prefixOp st
      .ok (.unaryOp .expression_unary_operator tok.type rhs, st)
    | _ => .ok (.empty .invalid, logError st)

/-- `Parser::ParseBinaryExpression`: consume the operator and parse the
right operand at the operator's own precedence. -/
def parseBinaryExpression : Nat → Node → PState → Except P1Err (Node × PState)
  | 0, _, _ => .error .fuel
  | f + 1, left, st => do
    let r := peekT st
    let tok := r.1
    let st := eatT r.2
    let (rhs, st) ← parseExpression f (tokenTypeToPrecedense tok.type) st
    .ok (.binaryOp .expression_binary_operator tok.type left rhs, st)

/-- Binary-operator loop of `Parser::ParseExpression`: continue exactly
while the upcoming token's precedence strictly exceeds the `precedence`
argument. -/
def parseExprLoop : Nat → Precedence → Node → PState → Except P1Err (Node × PState)
  | 0, _, _, _ => .error .fuel
  | f + 1, prec, left, st =>
    let r := peekT st
    if prec.idx < (tokenTypeToPrecedense r.1.type).idx then do
      let (left2, st) ← parseBinaryExpression f left r.2
      parseExprLoop f prec left2 st
    else .ok (left, r.2)

/-- `Parser::ParseExpression(precedence)` (precedence climbing). -/
def parseExpression : Nat → Precedence → PState → Except P1Err (Node × PState)
  | 0, _, _ => .error .fuel
  | f + 1, prec, st => do
    let (left, st) ← parseUnaryExpression f st
    parseExprLoop f prec left st

end

/-- `Parser::ParseProgram` (src/unnamed/part_001): run the top-level loop
and package the declarations with the final error counter. -/
def parseProgram (f : Nat) (st : PState) : Except P1Err (Program × PState) := do
  let (ds, st) ← parseProgramAux f st
  .ok ({ declarations := ds, errorCount := st.errorCount }, st)

/-- Construct the parser on an input string and run `ParseProgram`
(the part_001 `Parser` owns its lexer, built from the input). -/
def parseInput (input : List Char) (f : Nat) : Except P1Err (Program × PState) :=
  parseProgram f { lex := Lex.mkLexer input }

end P1

namespace CodeAst

open Lex

/-!
The statement-list AST of src/Code/Parser.h, shared by the two parser
implementations embedded below (`CodeP` = src/unnamed/part_002, `CodeC` =
the first document of src/Code/Parser.cpp).  Identifiers are borrowed
string slices here (`std::string_view`), not tokens.  Pointer fields that
early error-returns can leave at their constructor defaults (nullptr /
nullopt) are `Option` with default `none`.

Note the constructor of `WhileStatement` in src/Code/Parser.h line 96
initializes its `Statement` base with `NodeType::statement_if`; the
embedding reproduces that value faithfully.  The later header snapshot
src/unnamed/part_004 (first document, line 118) uses
`NodeType::statement_while` instead.

`BoolLiteral` (used by part_002's `ParseUnaryExpression` with a `value`
field and rendered under `expression_bool_literal` in its
`NodeToString`) is absent from src/Code/Parser.h, which has the older
`TrueLiteral` / `FalseLiteral` pair; its enum member is appended here.
-/

/-- NodeType of src/Code/Parser.h, with `expression_bool_literal`
appended (see above). -/
inductive NodeType where
  | invalid
  | statement_variable_declaration
  | statement_procedure_declaration
  | statement_if
  | statement_while
  | statement_assingment
  | statement_block
  | statement_expression
  | expression_integer_literal
  | expression_true_literal
  | expression_false_literal
  | expression_identifier
  | expression_unary_operator
  | expression_binary_operator
  | expression_cast
  | expression_bool_literal
deriving DecidableEq, Repr

/-- The tag value the `WhileStatement` constructor of src/Code/Parser.h
writes into the node (line 96: `Statement(NodeType::statement_if)`). -/
def whileStatementCtorTag : NodeType := .statement_if

/-- The tag value the `WhileStatement` constructor of the later header
snapshot src/unnamed/part_004 (first document, line 118) writes. -/
def part004WhileStatementCtorTag : NodeType := .statement_while

/-- AST node: discriminant plus payload; see the header comment. -/
inductive Node where
  | empty (tag : NodeType)
  | varDecl (tag : NodeType) (identifier : List Char) (typeIdentifier : List Char)
      (value : Option Node)
  | ifStmt (tag : NodeType) (condition : Option Node) (trueBranch : Option Node)
      (falseBranch : Option Node)
  | whileStmt (tag : NodeType) (condition : Option Node) (body : Option Node)
  | blockStmt (tag : NodeType) (statements : List Node)
  | assignStmt (tag : NodeType) (identifier : List Char) (value : Option Node)
  | exprStmt (tag : NodeType) (expression : Option Node)
  | intLit (tag : NodeType) (value : Int)
  | identExpr (tag : NodeType) (name : List Char)
  | unaryOp (tag : NodeType) (op : TokenType) (right : Option Node)
  | binaryOp (tag : NodeType) (op : TokenType) (left : Option Node) (right : Option Node)
  | boolLit (tag : NodeType) (value : Bool)
deriving Repr

instance : Inhabited Node := ⟨.empty .invalid⟩

/-- The node's discriminant (`node->type`). -/
def Node.tag : Node → NodeType
  | .empty t => t
  | .varDecl t _ _ _ => t
  | .ifStmt t _ _ _ => t
  | .whileStmt t _ _ => t
  | .blockStmt t _ => t
  | .assignStmt t _ _ => t
  | .exprStmt t _ => t
  | .intLit t _ => t
  | .identExpr t _ => t
  | .unaryOp t _ _ => t
  | .binaryOp t _ _ _ => t
  | .boolLit t _ => t

/-- Overwrite the discriminant (`statement->type = NodeType::invalid`). -/
def Node.setTag : Node → NodeType → Node
  | .empty _, t => .empty t
  | .varDecl _ a b c, t => .varDecl t a b c
  | .ifStmt _ a b c, t => .ifStmt t a b c
  | .whileStmt _ a b, t => .whileStmt t a b
  | .blockStmt _ a, t => .blockStmt t a
  | .assignStmt _ a b, t => .assignStmt t a b
  | .exprStmt _ a, t => .exprStmt t a
  | .intLit _ a, t => .intLit t a
  | .identExpr _ a, t => .identExpr t a
  | .unaryOp _ a b, t => .unaryOp t a b
  | .binaryOp _ a b c, t => .binaryOp t a b c
  | .boolLit _ a, t => .boolLit t a

/-- Fatal outcomes: structural-fuel exhaustion (an embedding artifact
never reached in the concrete runs below), the Base.h `Panic` channel,
and a failed `Assert` (`AssumeToken`'s contract check). -/
inductive CAbort where
  | fuel
  | panic
  | assertFail
deriving DecidableEq, Repr

/-- Parser object state shared by both statement-variant parsers: lexer,
`expected_token_`, `current_statement_invalid_`, and the count of
diagnostics written to the log (`LogError` calls). -/
structure CState where
  lex : LexState
  expectedToken : Token := {}
  currentStatementInvalid : Bool := false
  diags : Nat := 0
deriving Repr

/-- `lexer_->PeekNextToken()` through the parser state. -/
def peekC (st : CState) : Token × CState :=
  let r := Lex.peekNextToken st.lex
  (r.1, { st with lex := r.2 })

/-- `lexer_->PeekToken(1)` through the parser state. -/
def peekC1 (st : CState) : Token × CState :=
  let r := Lex.peekToken 1 st.lex
  (r.1, { st with lex := r.2 })

/-- `lexer_->EatToken()`. -/
def eatC (st : CState) : CState :=
  { st with lex := Lex.eatToken st.lex }

/-- `lexer_->UneatToken()` (may hit the lexer's panic channel). -/
def uneatC (st : CState) : Except CAbort CState :=
  match Lex.uneatToken st.lex with
  | .ok l => .ok { st with lex := l }
  | .error _ => .error .panic

/-- `Parser::NextTokenIs`. -/
def nextC (ty : TokenType) (st : CState) : Bool × CState :=
  let r := peekC st
  (r.1.type = ty, r.2)

/-- `Parser::AssumeToken`: `Assert(token.type == type)`, then eat and
return the token. -/
def assumeToken (ty : TokenType) (st : CState) : Except CAbort (Token × CState) :=
  let r := peekC st
  if r.1.type = ty then .ok (r.1, eatC r.2)
  else .error .assertFail

/-- Loop of `Parser::EatTokensUntilSemicolon`: discard tokens while the
next one is neither `;` nor the EOF sentinel, then eat once more (so the
`;`, or the sentinel, is consumed too). -/
def eatTokensUntilSemiAux : Nat → CState → Except CAbort CState
  | 0, _ => .error .fuel
  | f + 1, st =>
    if (nextC (.tchar ';') st).1 then .ok (eatC (nextC (.tchar ';') st).2)
    else if (nextC .invalid (nextC (.tchar ';') st).2).1 then
      .ok (eatC (nextC .invalid (nextC (.tchar ';') st).2).2)
    else eatTokensUntilSemiAux f (eatC (nextC .invalid (nextC (.tchar ';') st).2).2)

/-- `Parser::ExpectToken` (identical in src/Code/Parser.cpp lines 214-228
and src/unnamed/part_002 lines 309-323): on a mismatch, log one
diagnostic, resynchronize past the next `;` (or EOF), flag the current
construct invalid and report failure; on a match, eat the token and store
it in `expected_token_`. -/
def expectToken (f : Nat) (ty : TokenType) (st : CState) : Except CAbort (Bool × CState) :=
  if (peekC st).1.type ≠ ty then
    match eatTokensUntilSemiAux f { (peekC st).2 with diags := (peekC st).2.diags + 1 } with
    | .ok st' => .ok (false, { st' with currentStatementInvalid := true })
    | .error e => .error e
  else
    .ok (true, { eatC (peekC st).2 with expectedToken := (peekC st).1 })

end CodeAst

namespace CodeP

open Lex CodeAst

/-!
The parser implementation of src/unnamed/part_002: statement-list
`ParseProgram` with `valid = !invalid`, parenthesized `if` / `while`
headers with brace-delimited branches, full precedence-climbing
expressions, and panic-mode recovery through `ExpectToken`.
`ParseUnaryExpression`'s default case is a hard `Panic` in this snapshot.
-/

/-- `Precedence` and `TokenTypeToPrecedense` are identical to the P1
variant (src/unnamed/part_002 lines 197-225). -/
def tokenTypeToPrecedense : TokenType → P1.Precedence := P1.tokenTypeToPrecedense

mutual

/-- Loop of `Parser::ParseProgram` (src/unnamed/part_002 lines 13-30),
carrying the `invalid` accumulator: a statement whose parse set
`current_statement_invalid_` is demoted to the `invalid` tag, the flag is
reset, and the loop continues. -/
def parseProgramAux : Nat → Bool → CState → Except CAbort (List Node × Bool × CState)
  | 0, _, _ => .error .fuel
  | f + 1, inv, st =>
    let r := peekC st
    if r.1.type = .invalid then .ok ([], inv, r.2)
    else do
      let (stmt, st) ← parseStatement f r.2
      let (stmt, inv, st) :=
        if st.currentStatementInvalid then
          (stmt.setTag .invalid, true, { st with currentStatementInvalid := false })
        else (stmt, inv, st)
      let (rest, inv2, st) ← parseProgramAux f inv st
      .ok (stmt :: rest, inv2, st)

/-- `Parser::ParseStatement` (src/unnamed/part_002 lines 32-62). -/
def parseStatement : Nat → CState → Except CAbort (Node × CState)
  | 0, _ => .error .fuel
  | f + 1, st =>
    let r := peekC st
    match r.1.type with
    | .identifier =>
      let r1 := peekC1 r.2
      if r1.1.type = .tchar ':' then parseVariableDeclarationStatement f r1.2
      else if r1.1.type = .tchar '=' then parseAssignmentStatement f r1.2
      else parseExpressionStatement f r1.2
    | .keyword_if => parseIfStatement f r.2
    | .keyword_while => parseWhileStatement f r.2
    | .tchar '{' => parseBlockStatement f r.2
    | _ => parseExpressionStatement f r.2

/-- `Parser::ParseExpressionStatement` (src/unnamed/part_002 lines
71-77). -/
def parseExpressionStatement : Nat → CState → Except CAbort (Node × CState)
  | 0, _ => .error .fuel
  | f + 1, st => do
    let (e, st) ← parseExpression f .lowest st
    let (_, st) ← expectToken f (.tchar ';') st
    .ok (.exprStmt .statement_expression (some e), st)

/-- `Parser::ParseIfStatement` (src/unnamed/part_002 lines 79-119): on
each failed `ExpectToken` the partially filled node is returned at once;
after `else`, a following `if` recurses into `ParseIfStatement`,
otherwise a block is required (with `UneatToken` before the block in this
snapshot). -/
def parseIfStatement : Nat → CState → Except CAbort (Node × CState)
  | 0, _ => .error .fuel
  | f + 1, st => do
    let (_, st) ← assumeToken .keyword_if st
    let (ok, st) ← expectToken f (.tchar '(') st
    if !ok then .ok (.ifStmt .statement_if none none none, st)
    else do
      let (cond, st) ← parseExpression f .lowest st
      let (ok, st) ← expectToken f (.tchar ')') st
      if !ok then .ok (.ifStmt .statement_if (some cond) none none, st)
      else do
        let (ok, st) ← expectToken f (.tchar '{') st
        if !ok then .ok (.ifStmt .statement_if (some cond) none none, st)
        else do
          let st ← uneatC st
          let (tb, st) ← parseBlockStatement f st
          let r := nextC .keyword_else st
          if !r.1 then .ok (.ifStmt .statement_if (some cond) (some tb) none, r.2)
          else do
            let st := eatC r.2
            let r2 := nextC .keyword_if st
            if r2.1 then do
              let (fb, st) ← parseIfStatement f r2.2
              .ok (.ifStmt .statement_if (some cond) (some tb) (some fb), st)
            else do
              let (ok, st) ← expectToken f (.tchar '{') r2.2
              if !ok then .ok (.ifStmt .statement_if (some cond) (some tb) none, st)
              else do
                let st ← uneatC st
                let (fb, st) ← parseBlockStatement f st
                .ok (.ifStmt .statement_if (some cond) (some tb) (some fb), st)

/-- `Parser::ParseWhileStatement` (src/unnamed/part_002 lines 121-141).
The node carries `whileStatementCtorTag`, the tag written by the
`WhileStatement` constructor of src/Code/Parser.h. -/
def parseWhileStatement : Nat → CState → Except CAbort (Node × CState)
  | 0, _ => .error .fuel
  | f + 1, st => do
    let (_, st) ← assumeToken .keyword_while st
    let (ok, st) ← expectToken f (.tchar '(') st
    if !ok then .ok (.whileStmt whileStatementCtorTag none none, st)
    else do
      let (cond, st) ← parseExpression f .lowest st
      let (ok, st) ← expectToken f (.tchar ')') st
      if !ok then .ok (.whileStmt whileStatementCtorTag (some cond) none, st)
      else do
        let (ok, st) ← expectToken f (.tchar '{') st
        if !ok then .ok (.whileStmt whileStatementCtorTag (some cond) none, st)
        else do
          let st ← uneatC st
          let (body, st) ← parseBlockStatement f st
          .ok (.whileStmt whileStatementCtorTag (some cond) (some body), st)

/-- `Parser::ParseVariableDeclarationStatement` (src/unnamed/part_002
lines 143-164). -/
def parseVariableDeclarationStatement : Nat → CState → Except CAbort (Node × CState)
  | 0, _ => .error .fuel
  | f + 1, st => do
    let (idTok, st) ← assumeToken .identifier st
    let (_, st) ← assumeToken (.tchar ':') st
    let (ok, st) ← expectToken f .identifier st
    if !ok then .ok (.varDecl .statement_variable_declaration idTok.ident [] none, st)
    else do
      let tyIdent := st.expectedToken.ident
      let r := nextC (.tchar '=') st
      if r.1 then do
        let st := eatC r.2
        let (v, st) ← parseExpression f .lowest st
        let (_, st) ← expectToken f (.tchar ';') st
        .ok (.varDecl .statement_variable_declaration idTok.ident tyIdent (some v), st)
      else do
        let (_, st) ← expectToken f (.tchar ';') r.2
        .ok (.varDecl .statement_variable_declaration idTok.ident tyIdent none, st)

/-- `Parser::ParseAssignmentStatement` (src/unnamed/part_002 lines
166-175). -/
def parseAssignmentStatement : Nat → CState → Except CAbort (Node × CState)
  | 0, _ => .error .fuel
  | f + 1, st => do
    let (idTok, st) ← assumeToken .identifier st
    let (_, st) ← assumeToken (.tchar '=') st
    let (v, st) ← parseExpression f .lowest st
    let (_, st) ← expectToken f (.tchar ';') st
    .ok (.assignStmt .statement_assingment idTok.ident (some v), st)

/-- Statement loop of `Parser::ParseBlockStatement` (the temporary
vector). -/
def parseBlockItems : Nat → List Node → CState → Except CAbort (List Node × CState)
  | 0, _, _ => .error .fuel
  | f + 1, acc, st =>
    let r1 := nextC (.tchar '}') st
    if r1.1 then .ok (acc, r1.2)
    else
      let r2 := nextC .invalid r1.2
      if r2.1 then .ok (acc, r2.2)
      else do
        let (stmt, st) ← parseStatement f r2.2
        parseBlockItems f (acc ++ [stmt]) st

/-- `Parser::ParseBlockStatement` (src/unnamed/part_002 lines 177-195):
after the loop a single `EatToken` consumes the closing `}` (or the EOF
sentinel). -/
def parseBlockStatement : Nat → CState → Except CAbort (Node × CState)
  | 0, _ => .error .fuel
  | f + 1, st => do
    let (_, st) ← assumeToken (.tchar '{') st
    let (items, st) ← parseBlockItems f [] st
    let st := eatC st
    .ok (.blockStmt .statement_block items, st)

/-- `Parser::ParseUnaryExpression` (src/unnamed/part_002 lines 227-275):
the default case is `Panic(...)` in this snapshot. -/
def parseUnaryExpression : Nat → CState → Except CAbort (Node × CState)
  | 0, _ => .error .fuel
  | f + 1, st =>
    let r := peekC st
    let tok := r.1
    let st := eatC r.2
    match tok.type with
    | .identifier => .ok (.identExpr .expression_identifier tok.ident, st)
    | .integer => .ok (.intLit .expression_integer_literal tok.intVal, st)
    | .keyword_true => .ok (.boolLit .expression_bool_literal true, st)
    | .keyword_false => .ok (.boolLit .expression_bool_literal false, st)
    | .tchar '-' => do
      let (rhs, st) ← parseExpression f .prefixOp st
      .ok (.unaryOp .expression_unary_operator tok.type (some rhs), st)
    | .tchar '!' => do
      let (rhs, st) ← parseExpression f .prefixOp st
      .ok (.unaryOp .expression_unary_operator tok.type (some rhs), st)
    | _ => .error .panic

/-- `Parser::ParseBinaryExpression` (src/unnamed/part_002 lines
277-287). -/
def parseBinaryExpression : Nat → Node → CState → Except CAbort (Node × CState)
  | 0, _, _ => .error .fuel
  | f + 1, left, st => do
    let r := peekC st
    let tok := r.1
    let st := eatC r.2
    let (rhs, st) ← parseExpression f (tokenTypeToPrecedense tok.type) st
    .ok (.binaryOp .expression_binary_operator tok.type (some left) (some rhs), st)

/-- Binary-operator loop of `Parser::ParseExpression`. -/
def parseExprLoop : Nat → P1.Precedence → Node → CState → Except CAbort (Node × CState)
  | 0, _, _, _ => .error .fuel
  | f + 1, prec, left, st =>
    let r := peekC st
    if prec.idx < (tokenTypeToPrecedense r.1.type).idx then do
      let (left2, st) ← parseBinaryExpression f left r.2
      parseExprLoop f prec left2 st
    else .ok (left, r.2)

/-- `Parser::ParseExpression(precedence)` (src/unnamed/part_002 lines
289-299). -/
def parseExpression : Nat → P1.Precedence → CState → Except CAbort (Node × CState)
  | 0, _, _ => .error .fuel
  | f + 1, prec, st => do
    let (left, st) ← parseUnaryExpression f st
    parseExprLoop f prec left st

end

/-- `Parser::ParseProgram` (src/unnamed/part_002): returns the statement
list and the validity flag `!invalid`. -/
def parseProgram (f : Nat) (st : CState) : Except CAbort ((List Node × Bool) × CState) := do
  let (stmts, inv, st) ← parseProgramAux f false st
  .ok ((stmts, !inv), st)

/-- Build the parser on an input (the caller owns the lexer in this
variant; `Main.cpp` constructs it directly on the source string). -/
def parseInput (input : List Char) (f : Nat) : Except CAbort ((List Node × Bool) × CState) :=
  parseProgram f { lex := Lex.mkLexer input }

end CodeP

namespace CodeC

open Lex CodeAst

/-!
The parser implementation in the first document of src/Code/Parser.cpp.
It shares `ParseStatement` dispatch, `ExpectToken` resynchronization and
the block/while/variable-declaration structure with src/unnamed/part_002,
but: `ParseExpression` is a stub (marked `// Temporary`) that allocates an
`invalid` expression node, expects a `;`, and flags the current statement
invalid; `ParseExpressionStatement` does not expect a terminating `;`;
the else-branch of `ParseIfStatement` lacks the `UneatToken()` before
`ParseBlockStatement`; and `ParseProgram` returns `{program, invalid}` —
the `invalid` accumulator is stored into the `valid` field of
`ParseProgramResult` without negation.
-/

mutual

/-- Loop of `Parser::ParseProgram` (src/Code/Parser.cpp lines 13-30),
identical to the part_002 loop. -/
def parseProgramAux : Nat → Bool → CState → Except CAbort (List Node × Bool × CState)
  | 0, _, _ => .error .fuel
  | f + 1, inv, st =>
    let r := peekC st
    if r.1.type = .invalid then .ok ([], inv, r.2)
    else do
      let (stmt, st) ← parseStatement f r.2
      let (stmt, inv, st) :=
        if st.currentStatementInvalid then
          (stmt.setTag .invalid, true, { st with currentStatementInvalid := false })
        else (stmt, inv, st)
      let (rest, inv2, st) ← parseProgramAux f inv st
      .ok (stmt :: rest, inv2, st)

/-- `Parser::ParseStatement` (src/Code/Parser.cpp lines 32-64). -/
def parseStatement : Nat → CState → Except CAbort (Node × CState)
  | 0, _ => .error .fuel
  | f + 1, st =>
    let r := peekC st
    match r.1.type with
    | .identifier =>
      let r1 := peekC1 r.2
      if r1.1.type = .tchar ':' then parseVariableDeclarationStatement f r1.2
      else if r1.1.type = .tchar '=' then parseAssignmentStatement f r1.2
      else parseExpressionStatement f r1.2
    | .keyword_if => parseIfStatement f r.2
    | .keyword_while => parseWhileStatement f r.2
    | .tchar '{' => parseBlockStatement f r.2
    | _ => parseExpressionStatement f r.2

/-- `Parser::ParseExpressionStatement` (src/Code/Parser.cpp lines 73-78):
no terminating `;` is expected here in this snapshot. -/
def parseExpressionStatement : Nat → CState → Except CAbort (Node × CState)
  | 0, _ => .error .fuel
  | f + 1, st => do
    let (e, st) ← parseExpression f st
    .ok (.exprStmt .statement_expression (some e), st)

/-- `Parser::ParseIfStatement` (src/Code/Parser.cpp lines 80-119): like
the part_002 version but with no `UneatToken()` before the else-branch
block, so that path hands `ParseBlockStatement` a cursor already past the
`{` and its `AssumeToken` assertion fails. -/
def parseIfStatement : Nat → CState → Except CAbort (Node × CState)
  | 0, _ => .error .fuel
  | f + 1, st => do
    let (_, st) ← assumeToken .keyword_if st
    let (ok, st) ← expectToken f (.tchar '(') st
    if !ok then .ok (.ifStmt .statement_if none none none, st)
    else do
      let (cond, st) ← parseExpression f st
      let (ok, st) ← expectToken f (.tchar ')') st
      if !ok then .ok (.ifStmt .statement_if (some cond) none none, st)
      else do
        let (ok, st) ← expectToken f (.tchar '{') st
        if !ok then .ok (.ifStmt .statement_if (some cond) none none, st)
        else do
          let st ← uneatC st
          let (tb, st) ← parseBlockStatement f st
          let r := nextC .keyword_else st
          if !r.1 then .ok (.ifStmt .statement_if (some cond) (some tb) none, r.2)
          else do
            let st := eatC r.2
            let r2 := nextC .keyword_if st
            if r2.1 then do
              let (fb, st) ← parseIfStatement f r2.2
              .ok (.ifStmt .statement_if (some cond) (some tb) (some fb), st)
            else do
              let (ok, st) ← expectToken f (.tchar '{') r2.2
              if !ok then .ok (.ifStmt .statement_if (some cond) (some tb) none, st)
              else do
                let (fb, st) ← parseBlockStatement f st
                .ok (.ifStmt .statement_if (some cond) (some tb) (some fb), st)

/-- `Parser::ParseWhileStatement` (src/Code/Parser.cpp lines 121-141).
The node carries `whileStatementCtorTag` — the `statement_if` value the
src/Code/Parser.h `WhileStatement` constructor writes. -/
def parseWhileStatement : Nat → CState → Except CAbort (Node × CState)
  | 0, _ => .error .fuel
  | f + 1, st => do
    let (_, st) ← assumeToken .keyword_while st
    let (ok, st) ← expectToken f (.tchar '(') st
    if !ok then .ok (.whileStmt whileStatementCtorTag none none, st)
    else do
      let (cond, st) ← parseExpression f st
      let (ok, st) ← expectToken f (.tchar ')') st
      if !ok then .ok (.whileStmt whileStatementCtorTag (some cond) none, st)
      else do
        let (ok, st) ← expectToken f (.tchar '{') st
        if !ok then .ok (.whileStmt whileStatementCtorTag (some cond) none, st)
        else do
          let st ← uneatC st
          let (body, st) ← parseBlockStatement f st
          .ok (.whileStmt whileStatementCtorTag (some cond) (some body), st)

/-- `Parser::ParseVariableDeclarationStatement` (src/Code/Parser.cpp
lines 143-164). -/
def parseVariableDeclarationStatement : Nat → CState → Except CAbort (Node × CState)
  | 0, _ => .error .fuel
  | f + 1, st => do
    let (idTok, st) ← assumeToken .identifier st
    let (_, st) ← assumeToken (.tchar ':') st
    let (ok, st) ← expectToken f .identifier st
    if !ok then .ok (.varDecl .statement_variable_declaration idTok.ident [] none, st)
    else do
      let tyIdent := st.expectedToken.ident
      let r := nextC (.tchar '=') st
      if r.1 then do
        let st := eatC r.2
        let (v, st) ← parseExpression f st
        let (_, st) ← expectToken f (.tchar ';') st
        .ok (.varDecl .statement_variable_declaration idTok.ident tyIdent (some v), st)
      else do
        let (_, st) ← expectToken f (.tchar ';') r.2
        .ok (.varDecl .statement_variable_declaration idTok.ident tyIdent none, st)

/-- `Parser::ParseAssignmentStatement` (src/Code/Parser.cpp lines
166-175). -/
def parseAssignmentStatement : Nat → CState → Except CAbort (Node × CState)
  | 0, _ => .error .fuel
  | f + 1, st => do
    let (idTok, st) ← assumeToken .identifier st
    let (_, st) ← assumeToken (.tchar '=') st
    let (v, st) ← parseExpression f st
    let (_, st) ← expectToken f (.tchar ';') st
    .ok (.assignStmt .statement_assingment idTok.ident (some v), st)

/-- Statement loop of `Parser::ParseBlockStatement`. -/
def parseBlockItems : Nat → List Node → CState → Except CAbort (List Node × CState)
  | 0, _, _ => .error .fuel
  | f + 1, acc, st =>
    let r1 := nextC (.tchar '}') st
    if r1.1 then .ok (acc, r1.2)
    else
      let r2 := nextC .invalid r1.2
      if r2.1 then .ok (acc, r2.2)
      else do
        let (stmt, st) ← parseStatement f r2.2
        parseBlockItems f (acc ++ [stmt]) st

/-- `Parser::ParseBlockStatement` (src/Code/Parser.cpp lines 177-195). -/
def parseBlockStatement : Nat → CState → Except CAbort (Node × CState)
  | 0, _ => .error .fuel
  | f + 1, st => do
    let (_, st) ← assumeToken (.tchar '{') st
    let (items, st) ← parseBlockItems f [] st
    let st := eatC st
    .ok (.blockStmt .statement_block items, st)

/-- `Parser::ParseExpression` (src/Code/Parser.cpp lines 197-204, marked
`// Temporary`): allocate an `invalid` expression node, expect a `;`
(with the usual resynchronization on mismatch), unconditionally flag the
current statement invalid, and return the node. -/
def parseExpression : Nat → CState → Except CAbort (Node × CState)
  | 0, _ => .error .fuel
  | f + 1, st => do
    let (_, st) ← expectToken f (.tchar ';') st
    .ok (.empty .invalid, { st with currentStatementInvalid := true })

end

/-- `Parser::ParseProgram` (src/Code/Parser.cpp lines 13-30): returns
`{program, invalid}` — the accumulator lands in the `valid` field without
negation. -/
def parseProgram (f : Nat) (st : CState) : Except CAbort ((List Node × Bool) × CState) := do
  let (stmts, inv, st) ← parseProgramAux f false st
  .ok ((stmts, inv), st)

/-- Build the parser on an input and run `ParseProgram`. -/
def parseInput (input : List Char) (f : Nat) : Except CAbort ((List Node × Bool) × CState) :=
  parseProgram f { lex := Lex.mkLexer input }

end CodeC

namespace P1

open Lex

/-- Structural shape of an expression tree (integer literals and binary
operators; everything else collapses), used to state precedence results
independently of token source positions. -/
inductive ExprShape where
  | int (v : Int)
  | bin (op : Lex.TokenType) (l r : ExprShape)
  | other
deriving DecidableEq, Repr

/-- Project a node to its expression shape. -/
def exprShape : Node → ExprShape
  | .intLit _ tok => .int tok.intVal
  | .binaryOp _ op l r => .bin op (exprShape l) (exprShape r)
  | _ => .other

/-- Top-level declarations of a completed parse. -/
def runDecls (input : List Char) (f : Nat) : Option (List Node) :=
  match parseInput input f with
  | .ok (p, _) => some p.declarations
  | .error _ => none

/-- Error counter of a completed parse. -/
def runErrorCount (input : List Char) (f : Nat) : Option Nat :=
  match parseInput input f with
  | .ok (p, _) => some p.errorCount
  | .error _ => none

/-- Number of diagnostics a completed parse wrote to the log sink. -/
def runDiags (input : List Char) (f : Nat) : Option Nat :=
  match parseInput input f with
  | .ok (_, st) => some st.diags
  | .error _ => none

/-- The initializer of a variable declaration node. -/
def declValue : Node → Option Node
  | .varDecl _ _ _ v => v
  | _ => none

/-- An integer token, as the lexer produces it (for directly seeded token
streams). -/
def intToken (n : Int) : Token := { type := .integer, intVal := n }

/-- A payload-free token of the given type. -/
def opToken (t : TokenType) : Token := { type := t }

/-- A parser state over an already-tokenized stream (empty remaining
input, so every further `Tokenize` yields the EOF sentinel). -/
def seedState (toks : List Token) : PState :=
  { lex := { cc := { input := [] }, tokens := toks } }

/-- The eleven binary-operator tokens recognized by
`TokenTypeToPrecedense`. -/
def binaryOperatorTokens : List TokenType :=
  [.equals, .not_equals,
   .tchar '<', .tchar '>', .less_equals, .greater_equals,
   .tchar '+', .tchar '-',
   .tchar '*', .tchar '/', .tchar '%']

/-- Shape of the expression parsed from the token stream
`1 op1 2 op2 3`, at the given minimum precedence. -/
def towerShape (prec : Precedence) (op1 op2 : TokenType) : Option ExprShape :=
  match parseExpression 99 prec (seedState
      [intToken 1, opToken op1, intToken 2, opToken op2, intToken 3]) with
  | .ok r => some (exprShape r.1)
  | .error _ => none

/-- Shape and final token-cursor position of the expression parsed from
the token stream `1 op 2` at the given minimum precedence. -/
def boundaryShape (prec : Precedence) (op : TokenType) : Option (ExprShape × Nat) :=
  match parseExpression 99 prec (seedState [intToken 1, opToken op, intToken 2]) with
  | .ok r => some (exprShape r.1, r.2.lex.tokensCursor)
  | .error _ => none

/-- Demotion contract of one `ParseProgram` loop iteration (src/unnamed/
part_001 lines 28-43), for a state whose next token is not the EOF
sentinel: whenever the iteration's `ParseStatement` completes with a node
that is not a declaration, the loop's result on that state is exactly the
node demoted to the `invalid` tag, consed onto whatever the loop produces
for the remaining input — which is parsed from the state `logError st1`,
i.e. after exactly one diagnostic for the demotion (fuel-exhausted
continuations impose nothing). -/
def demotionStepSpec (f : Nat) (st : PState) : Prop :=
  match parseStatement f (peekT st).2 with
  | .error _ => True
  | .ok (stmt, st1) =>
    isDeclarationNode stmt = false →
    match parseProgramAux f (logError st1) with
    | .error _ => True
    | .ok (rest, st3) =>
      parseProgramAux (f + 1) st = .ok (stmt.setTag .invalid :: rest, st3)

end P1

namespace CodeAst

/-- Statement list of a completed parse result. -/
def resultStmts (r : Except CAbort ((List Node × Bool) × CState)) : Option (List Node) :=
  match r with
  | .ok ((s, _), _) => some s
  | .error _ => none

/-- The `valid` field of a completed `ParseProgramResult`. -/
def resultValid (r : Except CAbort ((List Node × Bool) × CState)) : Option Bool :=
  match r with
  | .ok ((_, v), _) => some v
  | .error _ => none

/-- Diagnostics count of a completed parse. -/
def resultDiags (r : Except CAbort ((List Node × Bool) × CState)) : Option Nat :=
  match r with
  | .ok (_, st) => some st.diags
  | .error _ => none

/-- The abort outcome of a parse, if any. -/
def resultAbort (r : Except CAbort ((List Node × Bool) × CState)) : Option CAbort :=
  match r with
  | .error e => some e
  | .ok _ => none

/-- The false branch of an if-statement node. -/
def Node.falseBranchOf : Node → Option Node
  | .ifStmt _ _ _ fb => fb
  | _ => none

/-- Mismatch contract of `Parser::ExpectToken`: whenever it completes, it
has reported failure, recorded exactly one new diagnostic, and flagged
the construct under construction invalid (the only other possible
outcome of the embedding is fuel exhaustion). -/
def expectTokenMismatchSpec (f : Nat) (ty : Lex.TokenType) (st : CState) : Prop :=
  match expectToken f ty st with
  | .ok (b, st') => b = false ∧ st'.diags = st.diags + 1 ∧ st'.currentStatementInvalid = true
  | .error e => e = .fuel

end CodeAst

/-- The canonical precedence/associativity example input (spec §8). -/
def c1Input : List Char := "a: int = 1 + 2 * 3;".toList

/-- The resynchronization example input (spec §8): `"a: int = ;"`
followed by one well-formed declaration. -/
def c2Input : List Char := "a: int = ; b: int = 5;".toList

/-- The else-if chaining example input (spec §8). -/
def c9Input : List Char := "if (a) \x7b b = 1; \x7d else if (c) \x7b b = 2; \x7d else \x7b b = 3; \x7d".toList

/-- A parser state whose next token is the identifier `b` (used as the
concrete instantiation of the ExpectToken mismatch contract). -/
def c2WitnessState : CodeAst.CState := { lex := Lex.mkLexer "b: int = 5;".toList }

/-- A parser state whose first top-level construct, `1;`, is an
expression statement — not a declaration (concrete instantiation of the
demotion contract). -/
def c5WitnessState : P1.PState := { lex := Lex.mkLexer "1; x: int = 5;".toList }

/-- The outermost statement produced by the part_002 parser on the
else-if chaining example. -/
def c9Outer : Option CodeAst.Node :=
  (CodeAst.resultStmts (CodeP.parseInput c9Input 199)).bind List.head?

/-- Its false branch. -/
def c9Inner : Option CodeAst.Node := c9Outer.bind CodeAst.Node.falseBranchOf

/-- The false branch of the false branch. -/
def c9InnerInner : Option CodeAst.Node := c9Inner.bind CodeAst.Node.falseBranchOf

/-- Tag of the node `CodeC::ParseWhileStatement` builds for
`"while (;) \x7b \x7d"` (the condition position holds the stub's invalid
expression, exercising no recovery that would demote the node). -/
def c10WhileTag : CodeAst.NodeType :=
  match CodeC.parseWhileStatement 99 { lex := Lex.mkLexer "while (;) \x7b \x7d".toList } with
  | .ok (n, _) => n.tag
  | .error _ => .invalid

/-- Tag of the node `CodeC::ParseIfStatement` builds for
`"if (;) \x7b \x7d"`. -/
def c10IfTag : CodeAst.NodeType :=
  match CodeC.parseIfStatement 99 { lex := Lex.mkLexer "if (;) \x7b \x7d".toList } with
  | .ok (n, _) => n.tag
  | .error _ => .invalid

/-- Tag of the node the part_001 parser's `ParseWhileStatement` builds
for `"while true \x7b \x7d"` (reached through the statement dispatch). -/
def c10P1WhileTag : P1.NodeType :=
  match P1.parseStatement 99 { lex := Lex.mkLexer "while true \x7b \x7d".toList } with
  | .ok (n, _) => n.tag
  | .error _ => .invalid

namespace Lex

/-! `Tokenize` appends exactly one token and never moves the token cursor
— by construction, since the character-level helpers act on `CharCursor`
only. -/

theorem tokenize_tokens (s : LexState) :
    ∃ t, (tokenize s).tokens = s.tokens ++ [t] := ⟨_, rfl⟩

theorem tokenize_tokens_length (s : LexState) :
    (tokenize s).tokens.length = s.tokens.length + 1 := by
  simp [tokenize]

theorem tokenize_tokensCursor (s : LexState) :
    (tokenize s).tokensCursor = s.tokensCursor := rfl

theorem tokenize_tokens_isPrefix (s : LexState) : s.tokens <+: (tokenize s).tokens :=
  List.prefix_append _ _

/-- Fuel-sufficiency and characterization of the token-buffer peek loop:
the cursor never moves, the buffer only grows by appending, the requested
position ends up inside the buffer, and the returned token is the buffered
token at that position. -/
theorem peekTokenAux_spec (f n : Nat) (s : LexState)
    (hf : s.tokensCursor + n + 1 ≤ s.tokens.length + f) :
    (peekTokenAux f n s).2.tokensCursor = s.tokensCursor ∧
    s.tokens <+: (peekTokenAux f n s).2.tokens ∧
    s.tokensCursor + n < (peekTokenAux f n s).2.tokens.length ∧
    (peekTokenAux f n s).1 = (peekTokenAux f n s).2.tokens.getD (s.tokensCursor + n) default := by
  induction f generalizing s with
  | zero =>
    have h : s.tokensCursor + n < s.tokens.length := by omega
    refine ⟨?_, ?_, ?_, ?_⟩ <;>
      simp only [peekTokenAux, dif_pos h] <;>
      first
        | rfl
        | exact List.prefix_refl _
        | exact h
        | simp [List.getD_eq_getElem?_getD, List.getElem?_eq_getElem h]
  | succ f ih =>
    by_cases h : s.tokensCursor + n < s.tokens.length
    · refine ⟨?_, ?_, ?_, ?_⟩ <;>
        simp only [peekTokenAux, dif_pos h] <;>
        first
          | rfl
          | exact List.prefix_refl _
          | exact h
          | simp [List.getD_eq_getElem?_getD, List.getElem?_eq_getElem h]
    · have hf' : (tokenize s).tokensCursor + n + 1 ≤ (tokenize s).tokens.length + f := by
        rw [tokenize_tokensCursor, tokenize_tokens_length]; omega
      have h1 := ih (tokenize s) hf'
      simp only [peekTokenAux, dif_neg h]
      refine ⟨?_, ?_, ?_, ?_⟩
      · rw [h1.1, tokenize_tokensCursor]
      · exact (tokenize_tokens_isPrefix s).trans h1.2.1
      · have := h1.2.2.1; rw [tokenize_tokensCursor] at this; exact this
      · have := h1.2.2.2; rw [tokenize_tokensCursor] at this; exact this

theorem peekToken_spec (n : Nat) (s : LexState) :
    (peekToken n s).2.tokensCursor = s.tokensCursor ∧
    s.tokens <+: (peekToken n s).2.tokens ∧
    s.tokensCursor + n < (peekToken n s).2.tokens.length ∧
    (peekToken n s).1 = (peekToken n s).2.tokens.getD (s.tokensCursor + n) default :=
  peekTokenAux_spec _ n s (by omega)

end Lex

namespace Arena

theorem alignForward_ok (p a : Nat) (hpow : isPowerOfTwo a = true) :
    alignForward p a = .ok (alignForwardVal p a) := by
  unfold alignForward
  rw [if_neg (by simp [hpow])]

theorem alignForwardVal_ge (p a : Nat) : p ≤ alignForwardVal p a := by
  unfold alignForwardVal
  split <;> omega

theorem alignForwardVal_mod (p a : Nat) (ha : 0 < a) : alignForwardVal p a % a = 0 := by
  unfold alignForwardVal
  split
  · assumption
  · have hd : a * (p / a) + p % a = p := Nat.div_add_mod p a
    have hlt : p % a < a := Nat.mod_lt _ ha
    have h2 : p % a + (a - p % a) = a := by omega
    have h3 : p + (a - p % a) = a * (p / a + 1) := by
      calc p + (a - p % a) = a * (p / a) + p % a + (a - p % a) := by rw [hd]
        _ = a * (p / a) + (p % a + (a - p % a)) := by rw [Nat.add_assoc]
        _ = a * (p / a) + a := by rw [h2]
        _ = a * (p / a + 1) := by ring
    rw [h3]
    exact Nat.mul_mod_right _ _

end Arena

theorem except_ok_bind {e a b : Type} (x : a) (g : a → Except e b) :
    (Except.ok x : Except e a) >>= g = g x := rfl

namespace CodeAst

theorem eatTokensUntilSemiAux_spec (f : Nat) (st : CState) :
    (∀ st', eatTokensUntilSemiAux f st = .ok st' →
      st'.diags = st.diags ∧ st'.currentStatementInvalid = st.currentStatementInvalid) ∧
    (∀ e, eatTokensUntilSemiAux f st = .error e → e = .fuel) := by
  induction f generalizing st with
  | zero =>
    constructor
    · intro st' h
      simp [eatTokensUntilSemiAux] at h
    · intro e h
      simp only [eatTokensUntilSemiAux] at h
      injection h with h
      exact h.symm
  | succ f ih =>
    constructor
    · intro st' h
      simp only [eatTokensUntilSemiAux] at h
      split at h
      · injection h with h
        subst h
        exact ⟨rfl, rfl⟩
      · split at h
        · injection h with h
          subst h
          exact ⟨rfl, rfl⟩
        · have h2 := (ih (eatC (nextC .invalid (nextC (.tchar ';') st).2).2)).1 st' h
          exact ⟨h2.1, h2.2⟩
    · intro e h
      simp only [eatTokensUntilSemiAux] at h
      split at h
      · injection h
      · split at h
        · injection h
        · exact (ih _).2 e h

theorem expectToken_mismatch (f : Nat) (ty : Lex.TokenType) (st : CState)
    (hne : (peekC st).1.type ≠ ty) : expectTokenMismatchSpec f ty st := by
  unfold expectTokenMismatchSpec expectToken
  rw [if_pos hne]
  rcases hsemi : eatTokensUntilSemiAux f
      { (peekC st).2 with diags := (peekC st).2.diags + 1 } with e | st'
  · exact (eatTokensUntilSemiAux_spec f _).2 _ hsemi
  · have hpres := (eatTokensUntilSemiAux_spec f _).1 st' hsemi
    exact ⟨rfl, hpres.1, rfl⟩

end CodeAst

set_option maxHeartbeats 2000000

/-- C1: for the input `a: int = 1 + 2 * 3;` the part_001 `ParseProgram`
returns exactly one variable declaration, error-free, whose initializer
is BinaryOp(+, IntegerLiteral 1, BinaryOp(*, IntegerLiteral 2,
IntegerLiteral 3)); and in general `ParseExpression(min_precedence)` on a
stream `1 op1 2 op2 3` left-associates operators of equal precedence,
nests a strictly higher-precedence `op2` to the right (the right operand
is parsed at the operator's own precedence), and consumes a following
binary operator only when its precedence strictly exceeds
`min_precedence` (at `min_precedence = prec(op)` the operator is left
unconsumed, cursor still before it; at `lowest` it is consumed). -/
theorem c1_expression_precedence :
    ((P1.runDecls c1Input 99).map (List.map P1.Node.tag) = some [.declaration_variable] ∧
     (P1.runDecls c1Input 99).map (List.map fun n => (P1.declValue n).map P1.exprShape) =
       some [some (.bin (.tchar '+') (.int 1) (.bin (.tchar '*') (.int 2) (.int 3)))] ∧
     P1.runErrorCount c1Input 99 = some 0 ∧
     P1.runDiags c1Input 99 = some 0) ∧
    (∀ op1 ∈ P1.binaryOperatorTokens, ∀ op2 ∈ P1.binaryOperatorTokens,
      (P1.tokenTypeToPrecedense op1 = P1.tokenTypeToPrecedense op2 →
        P1.towerShape .lowest op1 op2 =
          some (.bin op2 (.bin op1 (.int 1) (.int 2)) (.int 3))) ∧
      ((P1.tokenTypeToPrecedense op1).idx < (P1.tokenTypeToPrecedense op2).idx →
        P1.towerShape .lowest op1 op2 =
          some (.bin op1 (.int 1) (.bin op2 (.int 2) (.int 3))))) ∧
    (∀ op ∈ P1.binaryOperatorTokens,
      P1.boundaryShape (P1.tokenTypeToPrecedense op) op = some (.int 1, 1) ∧
      P1.boundaryShape .lowest op = some (.bin op (.int 1) (.int 2), 3)) := by
  refine ⟨⟨?_, ?_, ?_, ?_⟩, ?_, ?_⟩ <;> decide

/-- C1 witness: the general clauses instantiated at `+`/`-` (same tier,
left-associated), `+`/`*` (higher tier binds tighter), and the boundary
clause at `+`. -/
theorem c1_expression_precedence_witness :
    P1.towerShape .lowest (.tchar '+') (.tchar '-') =
      some (.bin (.tchar '-') (.bin (.tchar '+') (.int 1) (.int 2)) (.int 3)) ∧
    P1.towerShape .lowest (.tchar '+') (.tchar '*') =
      some (.bin (.tchar '+') (.int 1) (.bin (.tchar '*') (.int 2) (.int 3))) ∧
    P1.boundaryShape (P1.tokenTypeToPrecedense (.tchar '+')) (.tchar '+') = some (.int 1, 1) := by
  refine ⟨?_, ?_, ?_⟩
  · exact (c1_expression_precedence.2.1 (.tchar '+') (by decide) (.tchar '-') (by decide)).1
      (by decide)
  · exact (c1_expression_precedence.2.1 (.tchar '+') (by decide) (.tchar '*') (by decide)).2
      (by decide)
  · exact (c1_expression_precedence.2.2 (.tchar '+') (by decide)).1

/-- C2 counterexample: on `"a: int = ; b: int = 5;"` the src/Code
parser's resynchronization (`EatTokensUntilSemicolon` after the failed
`ExpectToken(';')`) discards the entire second declaration together with
its terminating `;`, so the returned program holds exactly one statement
— the demoted first declaration — and the claimed "second declaration
parses correctly" is false (it would require a second, valid
variable-declaration statement in the list). -/
theorem c2_error_recovery_counterexample :
    (CodeAst.resultStmts (CodeC.parseInput c2Input 99)).map (List.map CodeAst.Node.tag) =
      some [.invalid] ∧
    CodeAst.resultDiags (CodeC.parseInput c2Input 99) = some 1 := by
  decide

/-- C2 amended: whenever `Parser::ExpectToken` requires a token and meets
a different one, it reports failure having recorded exactly one new
diagnostic and set `current_statement_invalid_` (first clause), and the
discarding runs up to and including the NEXT `;` in the stream — so for
`"a: int = ;"` followed by a well-formed declaration the recovery
consumes the second declaration too: exactly one diagnostic, the first
declaration demoted to `invalid`, and a one-statement program, with the
surrounding loop running on to end of input (second clause). -/
theorem c2_error_recovery_amended :
    (∀ (f : Nat) (ty : Lex.TokenType) (st : CodeAst.CState),
      (CodeAst.peekC st).1.type ≠ ty → CodeAst.expectTokenMismatchSpec f ty st) ∧
    ((CodeAst.resultStmts (CodeC.parseInput c2Input 99)).map (List.map CodeAst.Node.tag) =
        some [.invalid] ∧
     CodeAst.resultDiags (CodeC.parseInput c2Input 99) = some 1) := by
  exact ⟨CodeAst.expectToken_mismatch, by decide, by decide⟩

/-- C2 witness: the mismatch clause of the amended theorem applied to a
concrete state (next token is the identifier `b`, `;` required). -/
theorem c2_error_recovery_amended_witness :
    CodeAst.expectTokenMismatchSpec 99 (.tchar ';') c2WitnessState := by
  exact c2_error_recovery_amended.1 99 (.tchar ';') c2WitnessState (by decide)

/-- C3: the claim is right about the intended result (`valid` true
exactly on an error-free parse, as src/unnamed/part_002's
`return {program, !invalid}` produces: empty input gives `valid = true`,
zero diagnostics) but src/Code/Parser.cpp's `ParseProgram` returns
`{program, invalid}` — the accumulator stored into the `valid` field
without negation — so the error-free empty parse reports `valid = false`
and the one-diagnostic parse of `"a: int = ;"` reports `valid = true`.
Moreover the claimed "always returns a Program" fails on part_002 for the
input `";"`, whose expression parse hits the `Panic` in
`ParseUnaryExpression` instead of returning. -/
theorem c3_validity_flag :
    (CodeAst.resultValid (CodeC.parseInput [] 99) = some false ∧
     CodeAst.resultDiags (CodeC.parseInput [] 99) = some 0) ∧
    (CodeAst.resultValid (CodeC.parseInput "a: int = ;".toList 99) = some true ∧
     CodeAst.resultDiags (CodeC.parseInput "a: int = ;".toList 99) = some 1) ∧
    (CodeAst.resultValid (CodeP.parseInput [] 99) = some true ∧
     CodeAst.resultDiags (CodeP.parseInput [] 99) = some 0) ∧
    CodeAst.resultAbort (CodeP.parseInput ";".toList 99) = some .panic := by
  decide

/-- C4 counterexample: an unscannable byte does NOT produce "no token":
`Tokenize` on `"@"` consumes the byte and appends one token — of the
`invalid` kind, the same discriminant as the end-of-input sentinel — and
a caller's `PeekNextToken` on `"@a"` is satisfied by that invalid token
(no retry reaches the `a`). -/
theorem c4_skip_policy_counterexample :
    (Lex.tokenize (Lex.mkLexer ['@'])).tokens.length = 1 ∧
    (Lex.tokenize (Lex.mkLexer ['@'])).tokens.map Lex.Token.type = [.invalid] ∧
    (Lex.peekNextToken (Lex.mkLexer ['@', 'a'])).1.type = .invalid := by
  decide

/-- C4 amended: an unrecognized, non-whitespace input character is
consumed silently — no diagnostic, no recoverable error — but the
tokenization request still appends exactly one token, of the `invalid`
kind (the end-of-input discriminant), whose span is the consumed
character; callers therefore see an end-of-input sentinel at that
position rather than retrying past the byte. -/
theorem c4_skip_policy_amended (s : Lex.LexState) (c : Char)
    (hc : Lex.peekNextChar s.cc = some c)
    (hw : c ∉ [' ', '\t', '\n'])
    (hcr : c = '\r' → Lex.peekChar s.cc 1 ≠ some '\n')
    (hp : c ∉ ['=', '!', '+', '-', '*', '/', '%', '<', '>',
               '{', '}', '(', ')', '[', ']', ';', ':', ','])
    (hd : Lex.isDigitChar c = false)
    (hi : Lex.isIdentStartChar c = false) :
    Lex.tokenize s =
      { cc := Lex.eatChar s.cc,
        tokens := s.tokens ++
          [{ type := .invalid, start := s.cc.currentLocation,
             endLoc := ⟨(Lex.eatChar s.cc).currentLocation.line,
                        (Lex.eatChar s.cc).currentLocation.column - 1⟩ }],
        tokensCursor := s.tokensCursor } := by
  have hne : ∀ x ∈ (['=', '!', '+', '-', '*', '/', '%', '<', '>',
      '{', '}', '(', ')', '[', ']', ';', ':', ','] : List Char), c ≠ x := by
    intro x hx he
    exact hp (he ▸ hx)
  have hwne : ∀ x ∈ ([' ', '\t', '\n'] : List Char), c ≠ x := by
    intro x hx he
    exact hw (he ▸ hx)
  have hskip : Lex.skipWhitespaces s.cc = s.cc := by
    have hcond : ¬ (Lex.peekNextChar s.cc = some ' ' ∨ Lex.peekNextChar s.cc = some '\t' ∨
        Lex.peekNextChar s.cc = some '\n' ∨
        (Lex.peekNextChar s.cc = some '\r' ∧ Lex.peekChar s.cc 1 = some '\n')) := by
      rw [hc]
      rintro (h | h | h | ⟨h1, h2⟩)
      · exact hwne ' ' (by decide) (by injection h)
      · exact hwne '\t' (by decide) (by injection h)
      · exact hwne '\n' (by decide) (by injection h)
      · have : c = '\r' := by injection h1
        exact hcr this h2
    unfold Lex.skipWhitespaces
    rcases hh : s.cc.input.length - s.cc.inputCursor with _ | f
    · rfl
    · unfold Lex.skipWsFuel
      rw [if_neg hcond]
  have hsw : Lex.tokenizeSwitch s.cc = (.invalid, [], 0, Lex.eatChar s.cc) := by
    unfold Lex.tokenizeSwitch
    rw [hc]
    dsimp only
    rw [if_neg (hne '=' (by decide)), if_neg (hne '!' (by decide)),
        if_neg (hne '+' (by decide)), if_neg (hne '-' (by decide)),
        if_neg (hne '*' (by decide)), if_neg (hne '/' (by decide)),
        if_neg (hne '%' (by decide)), if_neg (hne '<' (by decide)),
        if_neg (hne '>' (by decide))]
    have hmem : c ∉ (['{', '}', '(', ')', '[', ']', ';', ':', ','] : List Char) := by
      intro hm
      have hsub : (['{', '}', '(', ')', '[', ']', ';', ':', ','] : List Char) ⊆
          ['=', '!', '+', '-', '*', '/', '%', '<', '>',
           '{', '}', '(', ')', '[', ']', ';', ':', ','] := by decide
      exact hp (hsub hm)
    rw [if_neg hmem, if_neg (by simp [hd]), if_neg (by simp [hi])]
  unfold Lex.tokenize
  rw [hskip]
  dsimp only
  rw [hsw]

/-- C4 witness: the amended statement instantiated at the single-byte
input `@`. -/
theorem c4_skip_policy_amended_witness :
    Lex.tokenize (Lex.mkLexer ['@']) =
      { cc := Lex.eatChar (Lex.mkLexer ['@']).cc,
        tokens :=
          [{ type := .invalid, start := (Lex.mkLexer ['@']).cc.currentLocation,
             endLoc := ⟨(Lex.eatChar (Lex.mkLexer ['@']).cc).currentLocation.line,
                        (Lex.eatChar (Lex.mkLexer ['@']).cc).currentLocation.column - 1⟩ }],
        tokensCursor := 0 } := by
  exact c4_skip_policy_amended (Lex.mkLexer ['@']) '@' (by decide) (by decide)
    (by decide) (by decide) (by decide) (by decide)

/-- C5 counterexample: the top-level statement `1;` is demoted to the
`invalid` tag and a diagnostic is logged, but the program's error count
stays 0 — the demotion in part_001's `ParseProgram` calls `LogError`
without touching `error_count_`, so the claimed "counts it in the
program's error count" is false. -/
theorem c5_toplevel_demotion_counterexample :
    (P1.runDecls "1;".toList 99).map (List.map P1.Node.tag) = some [.invalid] ∧
    P1.runErrorCount "1;".toList 99 = some 0 ∧
    P1.runDiags "1;".toList 99 = some 1 := by
  decide

/-- C5 amended: for EVERY top-level construct that is not a variable,
constant, procedure, or type declaration, `ParseProgram` demotes the
parsed node to the invalid tag, emits one diagnostic for it, and
continues parsing the remaining top-level constructs; the demotion does
not increment the program's error count (only `ExpectToken` mismatches
do).  Clause 1 is the loop-iteration contract for every state, fuel and
parsed node; clause 2: demotion always produces the `invalid` tag, for
every node; clause 3: `LogError` adds exactly one diagnostic and leaves
`error_count_` untouched, for every state; clause 4 exhibits the
behaviour end-to-end on `"1; x: int = 5;"`: the demoted statement is
followed by the correctly parsed variable declaration, with error count
0 and one diagnostic. -/
theorem c5_toplevel_demotion_amended :
    (∀ (f : Nat) (st : P1.PState),
      (P1.peekT st).1.type ≠ .invalid → P1.demotionStepSpec f st) ∧
    (∀ n : P1.Node, (n.setTag .invalid).tag = .invalid) ∧
    (∀ st : P1.PState,
      (P1.logError st).diags = st.diags + 1 ∧
      (P1.logError st).errorCount = st.errorCount) ∧
    ((P1.runDecls "1; x: int = 5;".toList 99).map (List.map P1.Node.tag) =
      some [.invalid, .declaration_variable] ∧
     P1.runErrorCount "1; x: int = 5;".toList 99 = some 0 ∧
     P1.runDiags "1; x: int = 5;".toList 99 = some 1) := by
  refine ⟨?_, ?_, ?_, by decide⟩
  · intro f st hne
    unfold P1.demotionStepSpec
    rcases h1 : P1.parseStatement f (P1.peekT st).2 with e | ⟨stmt, st1⟩
    · trivial
    · intro hdecl
      rcases h2 : P1.parseProgramAux f (P1.logError st1) with e | ⟨rest, st3⟩
      · trivial
      · simp only [P1.parseProgramAux]
        rw [if_neg hne, h1, except_ok_bind]
        simp [hdecl, h2, except_ok_bind]
  · intro n
    cases n <;> rfl
  · intro st
    exact ⟨rfl, rfl⟩

/-- C5 witness: the demotion contract of the amended theorem applied at
the concrete state on `"1; x: int = 5;"`, whose first construct is the
expression statement `1;`. -/
theorem c5_toplevel_demotion_amended_witness :
    P1.demotionStepSpec 98 c5WitnessState := by
  exact c5_toplevel_demotion_amended.1 98 c5WitnessState (by decide)

/-- C6: for every lexer state and every peek distance `n`, `PeekToken(n)`
is idempotent — repeating it without an intervening `EatToken` returns
the same token and leaves the state exactly where the first call left it
— the token cursor never moves, tokens already produced are only ever
extended by appending (the old buffer is a prefix of the new one, so no
retokenization or mutation), and `PeekNextToken` is `PeekToken(0)`. -/
theorem c6_peek_idempotent (s : Lex.LexState) (n : Nat) :
    Lex.peekToken n (Lex.peekToken n s).2 = Lex.peekToken n s ∧
    (Lex.peekToken n s).2.tokensCursor = s.tokensCursor ∧
    s.tokens <+: (Lex.peekToken n s).2.tokens ∧
    Lex.peekNextToken s = Lex.peekToken 0 s := by
  obtain ⟨hcur, hpre, hin, htok⟩ := Lex.peekToken_spec n s
  refine ⟨?_, hcur, hpre, rfl⟩
  have hin' : (Lex.peekToken n s).2.tokensCursor + n < (Lex.peekToken n s).2.tokens.length := by
    rw [hcur]; exact hin
  have hfuel : (Lex.peekToken n s).2.tokensCursor + n + 1 -
      (Lex.peekToken n s).2.tokens.length = 0 := by omega
  have hstep : Lex.peekToken n (Lex.peekToken n s).2 =
      Lex.peekTokenAux ((Lex.peekToken n s).2.tokensCursor + n + 1 -
        (Lex.peekToken n s).2.tokens.length) n (Lex.peekToken n s).2 := rfl
  rw [hstep, hfuel]
  simp only [Lex.peekTokenAux]
  rw [dif_pos hin']
  refine Prod.ext ?_ rfl
  show (Lex.peekToken n s).2.tokens.get ⟨_, hin'⟩ = (Lex.peekToken n s).1
  rw [htok]
  simp only [List.get_eq_getElem, hcur]
  rw [List.getD_eq_getElem?_getD, List.getElem?_eq_getElem hin, Option.getD_some]

/-- C7: the claim holds for `UneatToken` (cursor at the start of the
token history hits the `Panic` channel) but not for `PreviousToken`:
its guard `tokens_cursor_ - 1 >= 0` is u64 arithmetic and always true, so
on a fresh lexer (cursor 0) the call reaches `tokens_.at(2^64 - 1)` and
aborts through the vector bounds-check exception — the `Panic("No
previous token")` branch is unreachable for every state. -/
theorem c7_previous_token_channel :
    Lex.previousToken (Lex.mkLexer ['a']) = .error .outOfRange ∧
    (∀ s : Lex.LexState, Lex.previousToken s ≠ .error .panic) ∧
    Lex.uneatToken (Lex.mkLexer ['a']) = .error .panic := by
  refine ⟨by decide, ?_, by decide⟩
  intro s
  unfold Lex.previousToken
  rw [if_pos (Nat.zero_le _)]
  split
  · intro h
    injection h
  · intro h
    injection h with h
    cases h

/-- C8 counterexample: a zero-size allocation returns the null pointer
before the capacity check, so "if the aligned offset plus the requested
size exceeds the arena's fixed capacity then Alloc terminates fatally" is
false as stated: after the reachable sequence `Arena(1); Alloc(1,1)` the
request `Alloc(0,16)` has aligned offset + size = 16 > capacity 1, yet
returns successfully (and does not move the arena). -/
theorem c8_arena_counterexample :
    Arena.alloc ⟨0, 1, 0⟩ 1 1 = .ok (some 0, ⟨0, 1, 1⟩) ∧
    Arena.alloc ⟨0, 1, 1⟩ 0 16 = .ok (none, ⟨0, 1, 1⟩) ∧
    1 < Arena.alignForwardVal (0 + 1) 16 - 0 + 0 := by
  decide

/-- C8 amended: for every POSITIVE-size request with a positive
power-of-two alignment, `Arena::Alloc` panics deterministically when the
aligned offset plus the size exceeds the fixed capacity, and otherwise
returns the aligned in-bounds pointer, bumping only the offset (base and
capacity unchanged — the arena never grows); zero-size requests instead
return the null pointer with the arena untouched and no capacity check. -/
theorem c8_arena_alloc_amended (s : Arena.ArenaState) (size align : Nat)
    (h1 : 0 < size) (h2 : 0 < align) (h3 : Arena.isPowerOfTwo align = true) :
    (s.size < Arena.alignForwardVal (s.base + s.offset) align - s.base + size →
      Arena.alloc s size align = .error .outOfMemory) ∧
    (Arena.alignForwardVal (s.base + s.offset) align - s.base + size ≤ s.size →
      Arena.alloc s size align =
        .ok (some (s.base + (Arena.alignForwardVal (s.base + s.offset) align - s.base)),
             { base := s.base, size := s.size,
               offset := Arena.alignForwardVal (s.base + s.offset) align - s.base + size }) ∧
      (s.base + (Arena.alignForwardVal (s.base + s.offset) align - s.base)) % align = 0 ∧
      s.base + s.offset ≤
        s.base + (Arena.alignForwardVal (s.base + s.offset) align - s.base) ∧
      s.base + (Arena.alignForwardVal (s.base + s.offset) align - s.base) + size ≤
        s.base + s.size) ∧
    (∀ sz0align : Nat, Arena.alloc s 0 sz0align = .ok (none, s)) := by
  have hge : s.base + s.offset ≤ Arena.alignForwardVal (s.base + s.offset) align :=
    Arena.alignForwardVal_ge _ _
  have hbase : s.base + (Arena.alignForwardVal (s.base + s.offset) align - s.base) =
      Arena.alignForwardVal (s.base + s.offset) align := by omega
  refine ⟨?_, ?_, ?_⟩
  · intro hover
    unfold Arena.alloc
    rw [if_neg (by omega : ¬ size = 0), Arena.alignForward_ok _ _ h3]
    dsimp only
    rw [if_pos hover]
  · intro hfits
    unfold Arena.alloc
    rw [if_neg (by omega : ¬ size = 0), Arena.alignForward_ok _ _ h3]
    dsimp only
    rw [if_neg (by omega : ¬ s.size < Arena.alignForwardVal (s.base + s.offset) align -
        s.base + size)]
    refine ⟨rfl, ?_, by omega, ?_⟩
    · rw [hbase]
      exact Arena.alignForwardVal_mod _ _ h2
    · rw [hbase]
      omega
  · intro sz0align
    unfold Arena.alloc
    rw [if_pos rfl]

/-- C8 witness: the amended statement instantiated at an arena of
capacity 64, offset 3, a 5-byte request with alignment 8: the pointer is
bumped to 8 and the block 8..13 lies inside the buffer. -/
theorem c8_arena_alloc_amended_witness :
    Arena.alloc ⟨0, 64, 3⟩ 5 8 =
      .ok (some (0 + (Arena.alignForwardVal (0 + 3) 8 - 0)),
           { base := 0, size := 64, offset := Arena.alignForwardVal (0 + 3) 8 - 0 + 5 }) ∧
    (0 + (Arena.alignForwardVal (0 + 3) 8 - 0)) % 8 = 0 ∧
    0 + 3 ≤ 0 + (Arena.alignForwardVal (0 + 3) 8 - 0) ∧
    0 + (Arena.alignForwardVal (0 + 3) 8 - 0) + 5 ≤ 0 + 64 := by
  exact (c8_arena_alloc_amended ⟨0, 64, 3⟩ 5 8 (by decide) (by decide) (by decide)).2.1
    (by decide)

/-- C9: parsing `"if (a) { b = 1; } else if (c) { b = 2; } else {
b = 3; }"` with the part_002 parser yields one top-level statement, a
right-nested If chain: the outer If's false branch is itself an If node
whose false branch is a Block (else-if chains recurse into
`ParseIfStatement` rather than flattening), and the parse is clean
(valid, no diagnostics). -/
theorem c9_else_if_chain :
    (CodeAst.resultStmts (CodeP.parseInput c9Input 199)).map List.length = some 1 ∧
    c9Outer.map CodeAst.Node.tag = some .statement_if ∧
    c9Inner.map CodeAst.Node.tag = some .statement_if ∧
    c9InnerInner.map CodeAst.Node.tag = some .statement_block ∧
    CodeAst.resultValid (CodeP.parseInput c9Input 199) = some true ∧
    CodeAst.resultDiags (CodeP.parseInput c9Input 199) = some 0 := by
  decide

/-- C10: the claim (every `ParseWhileStatement` node carries the
while-statement tag, distinct from the if-statement tag) names the
intended invariant, but the `WhileStatement` constructor of
src/Code/Parser.h writes `statement_if`, so the node built by
`CodeC::ParseWhileStatement` for `"while (;) \x7b \x7d"` carries the same
discriminant as the If node built for `"if (;) \x7b \x7d"` — the two
statements are indistinguishable by discriminant alone.  The later
header snapshot (src/unnamed/part_004) and the part_001 parser use the
intended `statement_while`, as the parse of `"while true \x7b \x7d"` shows. -/
theorem c10_while_statement_tag :
    CodeAst.whileStatementCtorTag = .statement_if ∧
    c10WhileTag = .statement_if ∧
    c10IfTag = .statement_if ∧
    CodeAst.NodeType.statement_if ≠ CodeAst.NodeType.statement_while ∧
    CodeAst.part004WhileStatementCtorTag = .statement_while ∧
    c10P1WhileTag = .statement_while := by
  decide
